import Mathlib

/-!
Verification of the SCGen generation-orchestration engine.

The definitions below are a shallow embedding of the TypeScript sources:
`src/backend/src/utils/aiService.ts` (second, provider-fallback variant),
`src/backend/src/server.ts` (sequential persona variant) and the main
server file (`src/unnamed/part_011`): its axios response interceptor,
cache helpers, `processWithPersona` and the `/api/generate` endpoint.

JavaScript strings are modelled as Lean `String`s; `String.prototype.includes`
is modelled by `jsIncludes` below, working on the underlying character lists.
-/

set_option maxRecDepth 20000

/-! ### List-of-characters machinery for JS string operations -/

/-- Model of JS `haystack.startsWith(needle)` on character lists. -/
def startsWithL : List Char → List Char → Bool
  | [], _ => true
  | _ :: _, [] => false
  | p :: ps, c :: cs => p == c && startsWithL ps cs

/-- Model of JS `haystack.includes(needle)` on character lists. -/
def containsL (pat : List Char) : List Char → Bool
  | [] => pat.isEmpty
  | c :: cs => startsWithL pat (c :: cs) || containsL pat cs

/-- Model of JS `s.includes(pat)`. -/
def jsIncludes (s pat : String) : Bool := containsL pat.data s.data

theorem startsWithL_iff {p s : List Char} : startsWithL p s = true ↔ p <+: s := by
  induction p generalizing s with
  | nil => simp [startsWithL]
  | cons a ps ih =>
    cases s with
    | nil => simp [startsWithL]
    | cons b cs => simp [startsWithL, List.cons_prefix_cons, ih]

theorem containsL_iff {p s : List Char} : containsL p s = true ↔ p <:+: s := by
  induction s with
  | nil => simp [containsL, List.isEmpty_iff, List.infix_nil]
  | cons c cs ih =>
    simp [containsL, startsWithL_iff, ih, List.infix_cons_iff]

theorem jsIncludes_iff {s pat : String} : jsIncludes s pat = true ↔ pat.data <:+: s.data :=
  containsL_iff

theorem not_infix_of_containsL_eq_false {p s : List Char} (h : containsL p s = false) :
    ¬ p <:+: s := by
  intro hc
  rw [← containsL_iff] at hc
  simp [hc] at h

/-- Decomposition of a prefix of an appended list. -/
theorem prefix_append_cases {p a b : List Char} (h : p <+: a ++ b) :
    p <+: a ∨ ∃ p₂, p = a ++ p₂ ∧ p₂ <+: b := by
  induction a generalizing p with
  | nil => exact Or.inr ⟨p, rfl, by simpa using h⟩
  | cons x a' ih =>
    cases p with
    | nil => exact Or.inl (List.nil_prefix)
    | cons y p' =>
      rw [List.cons_append, List.cons_prefix_cons] at h
      obtain ⟨rfl, h'⟩ := h
      rcases ih h' with h2 | ⟨p₂, rfl, h3⟩
      · exact Or.inl (by simpa [List.cons_prefix_cons] using h2)
      · exact Or.inr ⟨p₂, by simp, h3⟩

/-- Decomposition of an infix of an appended list: it lies in the left part,
in the right part, or spans the border. -/
theorem infix_append_cases {p a b : List Char} (h : p <:+: a ++ b) :
    p <:+: a ∨ p <:+: b ∨
      ∃ p₁ p₂, p = p₁ ++ p₂ ∧ p₁ ≠ [] ∧ p₂ ≠ [] ∧ p₁ <:+ a ∧ p₂ <+: b := by
  induction a with
  | nil => exact Or.inr (Or.inl (by simpa using h))
  | cons x a' ih =>
    rw [List.cons_append, List.infix_cons_iff] at h
    rcases h with h | h
    · rw [show x :: (a' ++ b) = (x :: a') ++ b from rfl] at h
      rcases prefix_append_cases h with h2 | ⟨p₂, rfl, h3⟩
      · exact Or.inl h2.isInfix
      · cases p₂ with
        | nil => exact Or.inl (by simp)
        | cons z zs =>
          exact Or.inr (Or.inr ⟨x :: a', z :: zs, rfl, by simp, by simp,
            List.suffix_rfl, h3⟩)
    · rcases ih h with h2 | h2 | ⟨p₁, p₂, rfl, h3, h4, h5, h6⟩
      · exact Or.inl (List.infix_cons h2)
      · exact Or.inr (Or.inl h2)
      · exact Or.inr (Or.inr ⟨p₁, p₂, rfl, h3, h4,
          h5.trans (List.suffix_cons x a'), h6⟩)

/-- Checks that no nonempty proper suffix of the pattern `p` is
prefix-comparable with `c`; used to rule out border-spanning matches whose
right half would have to start with the concrete text `c`. -/
def noSpanR (p c : List Char) : Bool :=
  (List.range p.length).all fun k =>
    k == 0 || (!(p.drop k).isPrefixOf c && !(c.isPrefixOf (p.drop k)))

/-- Checks that no nonempty proper prefix of the pattern `p` is
suffix-comparable with `c`; used to rule out border-spanning matches whose
left half would have to end with the concrete text `c`. -/
def noSpanL (p c : List Char) : Bool :=
  (List.range p.length).all fun k =>
    k == 0 || (!(p.take k).isSuffixOf c && !(c.isSuffixOf (p.take k)))

theorem kill_right {p c : List Char} (r : List Char) (hs : noSpanR p c = true) :
    ∀ p₁ p₂, p = p₁ ++ p₂ → p₁ ≠ [] → p₂ ≠ [] → ¬ (p₂ <+: c ++ r) := by
  intro p₁ p₂ hp h1 h2 hpre
  have hk : p₁.length ∈ List.range p.length := by
    rw [List.mem_range, hp, List.length_append]
    have : 0 < p₂.length := List.length_pos.mpr h2
    omega
  have := (List.all_eq_true.mp hs) _ hk
  have hne : (p₁.length == 0) = false := by
    simp [List.length_eq_zero]
    exact h1
  rw [hne, Bool.false_or, Bool.and_eq_true] at this
  have hdrop : p.drop p₁.length = p₂ := by rw [hp, List.drop_left]
  rw [hdrop] at this
  rcases List.prefix_or_prefix_of_prefix hpre (List.prefix_append c r) with h | h
  · rw [← List.isPrefixOf_iff_prefix] at h
    simp [h] at this
  · rw [← List.isPrefixOf_iff_prefix] at h
    simp [h] at this

theorem kill_left {p c : List Char} (l : List Char) (hs : noSpanL p c = true) :
    ∀ p₁ p₂, p = p₁ ++ p₂ → p₁ ≠ [] → p₂ ≠ [] → ¬ (p₁ <:+ l ++ c) := by
  intro p₁ p₂ hp h1 h2 hsuf
  have hk : p₁.length ∈ List.range p.length := by
    rw [List.mem_range, hp, List.length_append]
    have : 0 < p₂.length := List.length_pos.mpr h2
    omega
  have := (List.all_eq_true.mp hs) _ hk
  have hne : (p₁.length == 0) = false := by
    simp [List.length_eq_zero]
    exact h1
  rw [hne, Bool.false_or, Bool.and_eq_true] at this
  have htake : p.take p₁.length = p₁ := by rw [hp, List.take_left]
  rw [htake] at this
  rcases List.suffix_or_suffix_of_suffix hsuf (List.suffix_append l c) with h | h
  · rw [← List.isSuffixOf_iff_suffix] at h
    simp [h] at this
  · rw [← List.isSuffixOf_iff_suffix] at h
    simp [h] at this

/-- No occurrence of `p` in `a ++ b`, ruling out spanning occurrences by the
shape of the beginning of `b` (which must be `c ++ r`). -/
theorem noInfix_append_r {p a b c r : List Char} (hb : b = c ++ r)
    (ha : ¬ p <:+: a) (hbn : ¬ p <:+: b) (hs : noSpanR p c = true) :
    ¬ p <:+: a ++ b := by
  intro h
  rcases infix_append_cases h with h | h | ⟨p₁, p₂, hp, h1, h2, _, h4⟩
  · exact ha h
  · exact hbn h
  · exact kill_right r hs p₁ p₂ hp h1 h2 (hb ▸ h4)

/-- No occurrence of `p` in `a ++ b`, ruling out spanning occurrences by the
shape of the end of `a` (which must be `l ++ c`). -/
theorem noInfix_append_l {p a b l c : List Char} (hae : a = l ++ c)
    (ha : ¬ p <:+: a) (hbn : ¬ p <:+: b) (hs : noSpanL p c = true) :
    ¬ p <:+: a ++ b := by
  intro h
  rcases infix_append_cases h with h | h | ⟨p₁, p₂, hp, h1, h2, h3, _⟩
  · exact ha h
  · exact hbn h
  · exact kill_left l hs p₁ p₂ hp h1 h2 (hae ▸ h3)

theorem infix_append_of_left {p a : List Char} (b : List Char) (h : p <:+: a) :
    p <:+: a ++ b :=
  h.trans (List.prefix_append a b).isInfix

theorem infix_append_of_right {p b : List Char} (a : List Char) (h : p <:+: b) :
    p <:+: a ++ b :=
  h.trans (List.suffix_append a b).isInfix

/-! ### JS string helpers -/

/-- Model of JS `String.prototype.toLowerCase` on an ASCII character. -/
def jsToLowerChar (c : Char) : Char :=
  if 'A' ≤ c ∧ c ≤ 'Z' then Char.ofNat (c.toNat + 32) else c

/-- Model of JS `s.toLowerCase()` (ASCII range). -/
def jsToLower (s : String) : String := ⟨s.data.map jsToLowerChar⟩

/-- Whitespace characters stripped by JS `String.prototype.trim` (ASCII range). -/
def jsIsSpace (c : Char) : Bool :=
  c == ' ' || c == '\t' || c == '\n' || c == '\r' || c == '\x0b' || c == '\x0c'

/-- Model of JS `s.trim()`. -/
def jsTrim (s : String) : String :=
  ⟨((s.data.dropWhile jsIsSpace).reverse.dropWhile jsIsSpace).reverse⟩

/-- Model of JS `s.split('\n')` on character lists. -/
def splitNlL : List Char → List (List Char)
  | [] => [[]]
  | c :: cs =>
    if c = '\n' then [] :: splitNlL cs
    else
      match splitNlL cs with
      | [] => [[c]]
      | l :: ls => (c :: l) :: ls

/-- Model of JS `s.split('\n')`. -/
def jsSplitNl (s : String) : List String := (splitNlL s.data).map fun l => ⟨l⟩

/-- Model of JS `a < b` on strings: lexicographic comparison of code units. -/
def jsStrLtL : List Char → List Char → Bool
  | [], [] => false
  | [], _ :: _ => true
  | _ :: _, [] => false
  | a :: as, b :: bs =>
    if a.toNat < b.toNat then true
    else if b.toNat < a.toNat then false
    else jsStrLtL as bs

/-- Model of JS `a < b` on strings. -/
def jsStrLt (a b : String) : Bool := jsStrLtL a.data b.data

/-- Model of JS `version.replace('^', '')`: a string pattern given to
`String.prototype.replace` replaces the first occurrence only. -/
def removeFirstCaretL : List Char → List Char
  | [] => []
  | c :: cs => if c = '^' then cs else c :: removeFirstCaretL cs

/-- Model of JS `version.replace('^', '')`. -/
def removeFirstCaret (s : String) : String := ⟨removeFirstCaretL s.data⟩

/-! ### Request categories (enums of `src/unnamed/part_011`) -/

/-- Enum `EntityType` of `src/unnamed/part_011`. -/
inductive EntityType
  | privateLimited
  | publicLimited
  | partnership
  | llp
deriving DecidableEq

/-- String value of each `EntityType` member. -/
def EntityType.str : EntityType → String
  | .privateLimited => "PRIVATE LIMITED COMPANY"
  | .publicLimited => "PUBLIC LIMITED COMPANY"
  | .partnership => "PARTNERSHIP"
  | .llp => "LLP"

/-- Enum `TransactionType` of `src/unnamed/part_011`. -/
inductive TransactionType
  | b2b
  | b2c
  | p2p
deriving DecidableEq

/-- String value of each `TransactionType` member. -/
def TransactionType.str : TransactionType → String
  | .b2b => "B2B"
  | .b2c => "B2C"
  | .p2p => "P2P"

/-- Enum `ContractType` of `src/unnamed/part_011`. -/
inductive ContractType
  | equity
  | revenue
  | supplyChain
  | whiteLabel
  | vesting
  | governance
  | staking
  | liquidity
deriving DecidableEq

/-- String value of each `ContractType` member. -/
def ContractType.str : ContractType → String
  | .equity => "Equity Tokenization"
  | .revenue => "Revenue Sharing"
  | .supplyChain => "Supply Chain"
  | .whiteLabel => "White Label"
  | .vesting => "Vesting Agreements"
  | .governance => "Governance Token"
  | .staking => "Staking Contract"
  | .liquidity => "Liquidity Pool"

/-- `Object.values(EntityType)` in declaration order. -/
def entityTypeValues : List String :=
  ["PRIVATE LIMITED COMPANY", "PUBLIC LIMITED COMPANY", "PARTNERSHIP", "LLP"]

/-- `Object.values(TransactionType)` in declaration order. -/
def transactionTypeValues : List String := ["B2B", "B2C", "P2P"]

/-- `Object.values(ContractType)` in declaration order. -/
def contractTypeValues : List String :=
  ["Equity Tokenization", "Revenue Sharing", "Supply Chain", "White Label",
   "Vesting Agreements", "Governance Token", "Staking Contract", "Liquidity Pool"]

/-- The request validation of the `/api/generate` endpoint
(`src/unnamed/part_011`, lines 2243-2245): all three raw category fields must
be members of the respective enum value sets. -/
def validRequestStrings (entityType transactionType contractType : String) : Bool :=
  entityTypeValues.contains entityType &&
  transactionTypeValues.contains transactionType &&
  contractTypeValues.contains contractType

/-- Customization values (`Record<string, any>`): the source distinguishes
string values (quoted in the generic fallback template, typed `string`) from
non-string values (interpolated verbatim, typed `uint256`); numbers are the
representative non-string case. -/
inductive CustomValue
  | str (s : String)
  | num (n : Int)
deriving DecidableEq

/-- A JS object of customizations: association list of unique keys, in
insertion order. -/
abbrev Customizations := List (String × CustomValue)

/-- Template-literal rendering of a customization value. -/
def renderCV : CustomValue → String
  | .str s => s
  | .num n => toString n

/-- JS truthiness of a customization value (`""` and `0` are falsy). -/
def truthyCV : CustomValue → Bool
  | .str s => !(s == "")
  | .num n => !(n == 0)

/-! ### Result cache (`src/unnamed/part_011`, lines 857-966) -/

/-- Cache TTL: `CACHE_DURATION = 7 * 24 * 60 * 60 * 1000` milliseconds. -/
def CACHE_DURATION : Nat := 7 * 24 * 60 * 60 * 1000

/-- Field `security` of a cache entry / response. -/
structure SecurityInfo where
  vulnerabilities : List String
  recommendations : List String
deriving DecidableEq

/-- One entry of the `gasAnalysis` array. -/
structure GasAnalysis where
  functionName : String
  estimatedGas : Nat
  recommendations : List String
deriving DecidableEq

/-- Field `validation.status` of a cache entry. -/
inductive CacheStatus
  | valid
  | outdated
  | invalid
deriving DecidableEq

/-- Field `validation` of a cache entry; `lastChecked` is an epoch
timestamp in milliseconds. -/
structure ValidationInfo where
  lastChecked : Nat
  status : CacheStatus
  issues : List String
deriving DecidableEq

/-- Field `metadata` of a cache entry. -/
structure CacheMetadata where
  compiler : String
  framework : String
  dependencies : List (String × String)
deriving DecidableEq

/-- Field `fragments` of a cache entry. -/
structure CacheFragments where
  base : String
  features : List String
  customizations : Customizations
deriving DecidableEq

/-- Interface `CacheEntry` of `src/unnamed/part_011`. -/
structure CacheEntry where
  code : String
  timestamp : Nat
  analysis : String
  security : SecurityInfo
  gasAnalysis : List GasAnalysis
  fragments : CacheFragments
  metadata : CacheMetadata
  validation : ValidationInfo
deriving DecidableEq

/-- The in-process cache `contractCache : Map<string, CacheEntry>`, as an
association list whose head entry for a key is the most recent `set`. -/
abbrev ContractCache := List (String × CacheEntry)

/-- `contractCache.get(key)`. -/
def cacheGet (cache : ContractCache) (key : String) : Option CacheEntry :=
  (cache.lookup key)

/-- `contractCache.set(key, entry)`: later writes shadow earlier ones. -/
def cacheSet (cache : ContractCache) (key : String) (entry : CacheEntry) : ContractCache :=
  (key, entry) :: cache

/-- Function `generateCacheKey` (`src/unnamed/part_011`, lines 887-889).
The environment variable `SOLIDITY_VERSION` is passed explicitly as
`solidityVersion`. -/
def generateCacheKey (entityType transactionType contractType : String)
    (solidityVersion : Option String) : String :=
  entityType ++ "_" ++ transactionType ++ "_" ++ contractType ++ "_" ++
    (solidityVersion.getD "0.8.20")

/-- Function `checkDependencyVersions` (`src/unnamed/part_011`, lines
949-966). The npm registry is modelled by `registry`: `none` means the
version request failed (the package is then skipped with a warning). A
package is reported as outdated when the recorded version, with its first
`^` removed, compares lexicographically below the registry's latest
version. -/
def checkDependencyVersions (registry : String → Option String)
    (deps : List (String × String)) : List String :=
  deps.filterMap fun pv =>
    match registry pv.1 with
    | none => none
    | some latest =>
      if jsStrLt (removeFirstCaret pv.2) latest then
        some (pv.1 ++ ": " ++ pv.2 ++ " -> " ++ latest)
      else none

/-- Function `getFromCache` (`src/unnamed/part_011`, lines 891-911).
Returns the served entry (if any) together with the cache after the
in-place status mutations. -/
def getFromCache (registry : String → Option String) (now : Nat)
    (cache : ContractCache) (cacheKey : String) :
    Option CacheEntry × ContractCache :=
  match cacheGet cache cacheKey with
  | none => (none, cache)
  | some entry =>
    if now - entry.validation.lastChecked > CACHE_DURATION then
      (none, cacheSet cache cacheKey
        { entry with validation := { entry.validation with status := .outdated } })
    else
      let outdatedDeps := checkDependencyVersions registry entry.metadata.dependencies
      if outdatedDeps.isEmpty then
        (some entry, cache)
      else
        (none, cacheSet cache cacheKey
          { entry with validation :=
            { entry.validation with status := .outdated, issues := outdatedDeps } })

/-! ### aiService.ts: content validation and the fallback templates -/

/-- Concatenation of a list of string chunks; the long template literals of
`getFallbackContract` are stored as chunk lists to keep kernel evaluation
shallow. -/
def catChunks : List String → String
  | [] => ""
  | c :: cs => c ++ catChunks cs

theorem strData_append (a b : String) : (a ++ b).data = a.data ++ b.data := rfl

/-- Function `validateContractCode` (`src/backend/src/utils/aiService.ts`,
lines 377-410). Note that `hasSPDXLicense` is computed by the source but not
used in the returned conjunction. -/
def validateContractCode (code : String) : Bool :=
  let hasPragma := jsIncludes code "pragma solidity"
  let hasContract := jsIncludes code "contract "
  let hasConstructor := jsIncludes code "constructor"
  let hasFunction := jsIncludes code "function "
  let hasEllipsis := jsIncludes code "..."
  let hasPlaceholderComment := jsIncludes code "// TODO" ||
    jsIncludes code "// Implementation" ||
    jsIncludes code "rest of the code" ||
    jsIncludes code "// Add implementation"
  let isReasonableLength := code.length > 500
  hasPragma && hasContract && (hasConstructor || hasFunction) &&
    !hasEllipsis && !hasPlaceholderComment && isReasonableLength

/-- The unused `hasSPDXLicense` flag computed by `validateContractCode`. -/
def hasSPDXLicense (code : String) : Bool := jsIncludes code "SPDX-License-Identifier"

/-- Chunks of literal segment 1 of the 'eq' fallback template
(`src/backend/src/utils/aiService.ts`, `getFallbackContract`), split at line
breaks; their concatenation is exactly the source text between the template
interpolation points. -/
def eqSeg1Chunks : List String := ["// SPDX-License-Identifier: MIT", "\npragma solidity ^0.8.17;\n\nimport \"@openzeppelin/contracts/token/ERC20/ERC20.sol\";\nimport \"@openzeppelin/contracts/access/Ownable.sol\";\nimport \"@openzeppelin/contracts/security/Pausable.sol\";\n\n/**", "\n * @title Equity Token for "]

/-- Literal segment 1 of the 'eq' fallback template. -/
def eqSeg1 : String := catChunks eqSeg1Chunks

/-- Chunks of literal segment 2 of the 'eq' fallback template
(`src/backend/src/utils/aiService.ts`, `getFallbackContract`), split at line
breaks; their concatenation is exactly the source text between the template
interpolation points. -/
def eqSeg2Chunks : List String := ["\n * @dev ERC20 token representing equity shares with vesting capabilities\n */", "\ncontract "]

/-- Literal segment 2 of the 'eq' fallback template. -/
def eqSeg2 : String := catChunks eqSeg2Chunks

/-- Chunks of literal segment 3 of the 'eq' fallback template
(`src/backend/src/utils/aiService.ts`, `getFallbackContract`), split at line
breaks; their concatenation is exactly the source text between the template
interpolation points. -/
def eqSeg3Chunks : List String := [" is ERC20, Ownable, Pausable \x7b", "\n    // Token configuration\n    uint256 private _totalShares;\n    mapping(address => uint256) private _lockedTokens;\n    mapping(address => uint256) private _vestingEnd;\n\n    // Events\n    event SharesLocked(address indexed holder, uint256 amount, uint256 vestingEnd);\n    event SharesUnlocked(address indexed holder, uint256 amount);\n\n    /**\n     * @dev Constructor initializes the equity token\n     * @param name Token name\n     * @param symbol Token symbol\n     * @param initialSupply Initial token supply\n     */\n    constructor(\n        string memory name,\n        string memory symbol,\n        uint256 initialSupply\n    ) ERC20(name, symbol) \x7b\n        _mint(msg.sender, initialSupply);\n        _totalShares = initialSupply;\n    \x7d\n\n    /**\n     * @dev Lock shares for vesting\n     * @param holder Address of the shareholder\n     * @param amount Amount of shares to lock\n     * @param vestingDuration Duration of the vesting period in seconds\n     */\n    function lockShares(address holder, uint256 amount, uint256 vestingDuration) \n        external \n        onlyOwner \n    \x7b\n        require(balanceOf(holder) >= amount, \"Insufficient balance\");", "\n        _lockedTokens[holder] = amount;\n        _vestingEnd[holder] = block.timestamp + vestingDuration;\n        emit SharesLocked(holder, amount, _vestingEnd[holder]);\n    \x7d\n\n    /**\n     * @dev Unlock shares after vesting period\n     * @param holder Address of the shareholder\n     */\n    function unlockShares(address holder) \n        external \n    \x7b\n        require(block.timestamp >= _vestingEnd[holder], \"Vesting period not ended\");\n        uint256 amount = _lockedTokens[holder];\n        _lockedTokens[holder] = 0;\n        _vestingEnd[holder] = 0;\n        emit SharesUnlocked(holder, amount);\n    \x7d\n\n    /**\n     * @dev Override transfer function to respect locked shares\n     * @param to Recipient address\n     * @param amount Amount to transfer\n     */\n    function transfer(address to, uint256 amount) \n        public \n        virtual \n        override \n        returns (bool) \n    \x7b\n        require(amount <= balanceOf(msg.sender) - _lockedTokens[msg.sender], \"Shares locked\");\n        return super.transfer(to, amount);\n    \x7d\n\n    /**\n     * @dev Override transferFrom function to respect locked shares", "\n     * @param from Sender address\n     * @param to Recipient address\n     * @param amount Amount to transfer\n     */\n    function transferFrom(address from, address to, uint256 amount)\n        public\n        virtual\n        override\n        returns (bool)\n    \x7b\n        require(amount <= balanceOf(from) - _lockedTokens[from], \"Shares locked\");\n        return super.transferFrom(from, to, amount);\n    \x7d\n\n    /**\n     * @dev Pause all token transfers\n     */\n    function pause() external onlyOwner \x7b\n        _pause();\n    \x7d\n\n    /**\n     * @dev Unpause all token transfers\n     */\n    function unpause() external onlyOwner \x7b\n        _unpause();\n    \x7d", "\n\x7d"]

/-- Literal segment 3 of the 'eq' fallback template. -/
def eqSeg3 : String := catChunks eqSeg3Chunks

/-- Chunks of literal segment 1 of the 'sup' fallback template
(`src/backend/src/utils/aiService.ts`, `getFallbackContract`), split at line
breaks; their concatenation is exactly the source text between the template
interpolation points. -/
def supSeg1Chunks : List String := ["// SPDX-License-Identifier: MIT", "\npragma solidity ^0.8.17;\n\nimport \"@openzeppelin/contracts/access/AccessControl.sol\";\nimport \"@openzeppelin/contracts/security/Pausable.sol\";\n\n/**", "\n * @title Supply Chain Management Contract for "]

/-- Literal segment 1 of the 'sup' fallback template. -/
def supSeg1 : String := catChunks supSeg1Chunks

/-- Chunks of literal segment 2 of the 'sup' fallback template
(`src/backend/src/utils/aiService.ts`, `getFallbackContract`), split at line
breaks; their concatenation is exactly the source text between the template
interpolation points. -/
def supSeg2Chunks : List String := ["\n * @dev Manages product tracking throughout a supply chain\n */\ncontract SupplyChainManagement is AccessControl, Pausable \x7b\n    bytes32 public constant MANUFACTURER_ROLE = keccak256(\"MANUFACTURER_ROLE\");\n    bytes32 public constant DISTRIBUTOR_ROLE = keccak256(\"DISTRIBUTOR_ROLE\");\n    bytes32 public constant RETAILER_ROLE = keccak256(\"RETAILER_ROLE\");\n\n    enum ProductStatus \x7b Created, Shipped, Delivered, Recalled \x7d\n    \n    struct Product \x7b\n        string productId;\n        address manufacturer;\n        address currentOwner;\n        uint256 timestamp;\n        ProductStatus status;\n        string metadata;\n    \x7d\n\n    mapping(string => Product) public products;\n    mapping(string => mapping(uint256 => address)) public productHistory;\n    mapping(string => uint256) public productHistoryCount;\n\n    event ProductCreated(string productId, address manufacturer, string metadata);\n    event ProductShipped(string productId, address from, address to);\n    event ProductDelivered(string productId, address by);\n    event ProductRecalled(string productId, address by);\n    event ProductOwnershipTransferred(string productId, address from, address to);", "\n\n    constructor() \x7b\n        _setupRole(DEFAULT_ADMIN_ROLE, msg.sender);\n    \x7d\n\n    function createProduct(\n        string memory productId,\n        string memory metadata\n    ) \n        external \n        onlyRole(MANUFACTURER_ROLE) \n    \x7b\n        require(products[productId].manufacturer == address(0), \"Product already exists\");\n        \n        products[productId] = Product(\x7b\n            productId: productId,\n            manufacturer: msg.sender,\n            currentOwner: msg.sender,\n            timestamp: block.timestamp,\n            status: ProductStatus.Created,\n            metadata: metadata\n        \x7d);\n\n        productHistory[productId][0] = msg.sender;\n        productHistoryCount[productId] = 1;\n\n        emit ProductCreated(productId, msg.sender, metadata);\n    \x7d\n\n    function shipProduct(\n        string memory productId,\n        address to\n    ) \n        external \n    \x7b\n        require(products[productId].currentOwner == msg.sender, \"Not the current owner\");\n        require(\n            hasRole(DISTRIBUTOR_ROLE, to) || hasRole(RETAILER_ROLE, to),\n            \"Invalid recipient\"", "\n        );\n\n        products[productId].status = ProductStatus.Shipped;\n        products[productId].currentOwner = to;\n        products[productId].timestamp = block.timestamp;\n\n        uint256 count = productHistoryCount[productId];\n        productHistory[productId][count] = to;\n        productHistoryCount[productId] = count + 1;\n\n        emit ProductShipped(productId, msg.sender, to);\n        emit ProductOwnershipTransferred(productId, msg.sender, to);\n    \x7d\n\n    function deliverProduct(string memory productId) \n        external \n    \x7b\n        require(products[productId].currentOwner == msg.sender, \"Not the current owner\");\n        require(products[productId].status == ProductStatus.Shipped, \"Product not shipped\");\n\n        products[productId].status = ProductStatus.Delivered;\n        products[productId].timestamp = block.timestamp;\n\n        emit ProductDelivered(productId, msg.sender);\n    \x7d\n\n    function recallProduct(string memory productId) \n        external \n        onlyRole(MANUFACTURER_ROLE) \n    \x7b\n        require(products[productId].manufacturer == msg.sender, \"Not the manufacturer\");", "\n        \n        products[productId].status = ProductStatus.Recalled;\n        products[productId].timestamp = block.timestamp;\n\n        emit ProductRecalled(productId, msg.sender);\n    \x7d\n\n    function getProduct(string memory productId) \n        external \n        view \n        returns (Product memory) \n    \x7b\n        return products[productId];\n    \x7d\n\n    function getProductHistory(string memory productId) \n        external \n        view \n        returns (address[] memory) \n    \x7b\n        uint256 count = productHistoryCount[productId];\n        address[] memory history = new address[](count);\n        \n        for(uint256 i = 0; i < count; i++) \x7b\n            history[i] = productHistory[productId][i];\n        \x7d\n        \n        return history;\n    \x7d\n\n    function pause() external onlyRole(DEFAULT_ADMIN_ROLE) \x7b\n        _pause();\n    \x7d\n\n    function unpause() external onlyRole(DEFAULT_ADMIN_ROLE) \x7b\n        _unpause();\n    \x7d", "\n\x7d"]

/-- Literal segment 2 of the 'sup' fallback template. -/
def supSeg2 : String := catChunks supSeg2Chunks

/-- Chunks of literal segment 1 of the 'pro' fallback template
(`src/backend/src/utils/aiService.ts`, `getFallbackContract`), split at line
breaks; their concatenation is exactly the source text between the template
interpolation points. -/
def proSeg1Chunks : List String := ["// SPDX-License-Identifier: MIT", "\npragma solidity ^0.8.17;\n\nimport \"@openzeppelin/contracts/access/Ownable.sol\";\nimport \"@openzeppelin/contracts/security/ReentrancyGuard.sol\";\n\n/**", "\n * @title Profit Sharing Contract for "]

/-- Literal segment 1 of the 'pro' fallback template. -/
def proSeg1 : String := catChunks proSeg1Chunks

/-- Chunks of literal segment 2 of the 'pro' fallback template
(`src/backend/src/utils/aiService.ts`, `getFallbackContract`), split at line
breaks; their concatenation is exactly the source text between the template
interpolation points. -/
def proSeg2Chunks : List String := ["\n * @dev Manages profit distribution among partners\n */\ncontract ProfitSharing is Ownable, ReentrancyGuard \x7b\n    struct Partner \x7b\n        uint256 shares;\n        uint256 totalReceived;\n        bool exists;\n    \x7d\n\n    mapping(address => Partner) public partners;\n    address[] public partnerList;\n    uint256 public totalShares;\n    uint256 public totalDistributed;\n\n    event PartnerAdded(address indexed partner, uint256 shares);\n    event PartnerRemoved(address indexed partner);\n    event ProfitDistributed(uint256 amount);\n    event SharesUpdated(address indexed partner, uint256 newShares);\n\n    constructor(address[] memory _partners, uint256[] memory _shares) \x7b\n        require(_partners.length == _shares.length, \"Arrays length mismatch\");\n        uint256 _totalShares = 0;\n        \n        for(uint i = 0; i < _partners.length; i++) \x7b\n            require(_partners[i] != address(0), \"Invalid partner address\");\n            require(!partners[_partners[i]].exists, \"Duplicate partner\");\n            \n            partners[_partners[i]] = Partner(\x7b\n                shares: _shares[i],\n                totalReceived: 0,", "\n                exists: true\n            \x7d);\n            partnerList.push(_partners[i]);\n            _totalShares += _shares[i];\n        \x7d\n        \n        require(_totalShares == 100, \"Total shares must be 100\");\n        totalShares = _totalShares;\n    \x7d\n\n    function addPartner(address _partner, uint256 _shares) \n        external \n        onlyOwner \n    \x7b\n        require(_partner != address(0), \"Invalid partner address\");\n        require(!partners[_partner].exists, \"Partner already exists\");\n        require(totalShares + _shares <= 100, \"Total shares cannot exceed 100\");\n\n        partners[_partner] = Partner(\x7b\n            shares: _shares,\n            totalReceived: 0,\n            exists: true\n        \x7d);\n        partnerList.push(_partner);\n        totalShares += _shares;\n\n        emit PartnerAdded(_partner, _shares);\n    \x7d\n\n    function removePartner(address _partner) \n        external \n        onlyOwner \n    \x7b\n        require(partners[_partner].exists, \"Partner does not exist\");\n        totalShares -= partners[_partner].shares;\n        delete partners[_partner];\n\n        for(uint i = 0; i < partnerList.length; i++) \x7b", "\n            if(partnerList[i] == _partner) \x7b\n                partnerList[i] = partnerList[partnerList.length - 1];\n                partnerList.pop();\n                break;\n            \x7d\n        \x7d\n\n        emit PartnerRemoved(_partner);\n    \x7d\n\n    function updateShares(address _partner, uint256 _newShares) \n        external \n        onlyOwner \n    \x7b\n        require(partners[_partner].exists, \"Partner does not exist\");\n        totalShares = totalShares - partners[_partner].shares + _newShares;\n        require(totalShares <= 100, \"Total shares cannot exceed 100\");\n        \n        partners[_partner].shares = _newShares;\n        emit SharesUpdated(_partner, _newShares);\n    \x7d\n\n    function distributeProfits() \n        external \n        payable \n        nonReentrant \n    \x7b\n        require(msg.value > 0, \"No profits to distribute\");\n        uint256 amount = msg.value;\n        \n        for(uint i = 0; i < partnerList.length; i++) \x7b\n            address partner = partnerList[i];\n            uint256 share = (amount * partners[partner].shares) / 100;\n            partners[partner].totalReceived += share;", "\n            payable(partner).transfer(share);\n        \x7d\n        \n        totalDistributed += amount;\n        emit ProfitDistributed(amount);\n    \x7d\n\n    function getPartnerInfo(address _partner) \n        external \n        view \n        returns (uint256 shares, uint256 totalReceived, bool exists) \n    \x7b\n        Partner memory partner = partners[_partner];\n        return (partner.shares, partner.totalReceived, partner.exists);\n    \x7d\n\n    function getPartnerList() \n        external \n        view \n        returns (address[] memory) \n    \x7b\n        return partnerList;\n    \x7d", "\n\x7d"]

/-- Literal segment 2 of the 'pro' fallback template. -/
def proSeg2 : String := catChunks proSeg2Chunks

/-- Chunks of literal segment 1 of the 'rev' fallback template
(`src/backend/src/utils/aiService.ts`, `getFallbackContract`), split at line
breaks; their concatenation is exactly the source text between the template
interpolation points. -/
def revSeg1Chunks : List String := ["// SPDX-License-Identifier: MIT", "\npragma solidity ^0.8.17;\n\nimport \"@openzeppelin/contracts/access/Ownable.sol\";\nimport \"@openzeppelin/contracts/security/ReentrancyGuard.sol\";\n\n/**", "\n * @title Revenue Sharing Contract for "]

/-- Literal segment 1 of the 'rev' fallback template. -/
def revSeg1 : String := catChunks revSeg1Chunks

/-- Chunks of literal segment 2 of the 'rev' fallback template
(`src/backend/src/utils/aiService.ts`, `getFallbackContract`), split at line
breaks; their concatenation is exactly the source text between the template
interpolation points. -/
def revSeg2Chunks : List String := ["\n * @dev Manages revenue distribution among stakeholders\n */\ncontract RevenueSharing is Ownable, ReentrancyGuard \x7b\n    struct Stakeholder \x7b\n        uint256 shares;\n        uint256 totalEarnings;\n        bool exists;\n    \x7d\n\n    mapping(address => Stakeholder) public stakeholders;\n    address[] public stakeholderList;\n    \n    uint256 public totalShares;\n    uint256 public totalRevenue;\n    uint256 public totalDistributed;\n    \n    uint256 public constant PRECISION = 10000; // For handling percentages with 2 decimal places\n\n    event StakeholderAdded(address indexed stakeholder, uint256 shares);\n    event StakeholderRemoved(address indexed stakeholder);\n    event RevenueReceived(uint256 amount);\n    event RevenueDistributed(uint256 amount);\n    event SharesUpdated(address indexed stakeholder, uint256 newShares);\n\n    constructor(address[] memory _stakeholders, uint256[] memory _shares) \x7b\n        require(_stakeholders.length == _shares.length, \"Arrays length mismatch\");\n        uint256 _totalShares = 0;\n        \n        for(uint i = 0; i < _stakeholders.length; i++) \x7b\n            require(_stakeholders[i] != address(0), \"Invalid stakeholder address\");", "\n            require(!stakeholders[_stakeholders[i]].exists, \"Duplicate stakeholder\");\n            \n            stakeholders[_stakeholders[i]] = Stakeholder(\x7b\n                shares: _shares[i],\n                totalEarnings: 0,\n                exists: true\n            \x7d);\n            stakeholderList.push(_stakeholders[i]);\n            _totalShares += _shares[i];\n        \x7d\n        \n        require(_totalShares == PRECISION, \"Total shares must be 100%\");\n        totalShares = _totalShares;\n    \x7d\n\n    receive() external payable \x7b\n        totalRevenue += msg.value;\n        emit RevenueReceived(msg.value);\n    \x7d\n\n    function addStakeholder(address _stakeholder, uint256 _shares) \n        external \n        onlyOwner \n    \x7b\n        require(_stakeholder != address(0), \"Invalid stakeholder address\");\n        require(!stakeholders[_stakeholder].exists, \"Stakeholder already exists\");\n        require(totalShares + _shares <= PRECISION, \"Total shares cannot exceed 100%\");\n\n        stakeholders[_stakeholder] = Stakeholder(\x7b\n            shares: _shares,\n            totalEarnings: 0,\n            exists: true", "\n        \x7d);\n        stakeholderList.push(_stakeholder);\n        totalShares += _shares;\n\n        emit StakeholderAdded(_stakeholder, _shares);\n    \x7d\n\n    function removeStakeholder(address _stakeholder) \n        external \n        onlyOwner \n    \x7b\n        require(stakeholders[_stakeholder].exists, \"Stakeholder does not exist\");\n        totalShares -= stakeholders[_stakeholder].shares;\n        delete stakeholders[_stakeholder];\n\n        for(uint i = 0; i < stakeholderList.length; i++) \x7b\n            if(stakeholderList[i] == _stakeholder) \x7b\n                stakeholderList[i] = stakeholderList[stakeholderList.length - 1];\n                stakeholderList.pop();\n                break;\n            \x7d\n        \x7d\n\n        emit StakeholderRemoved(_stakeholder);\n    \x7d\n\n    function updateShares(address _stakeholder, uint256 _newShares) \n        external \n        onlyOwner \n    \x7b\n        require(stakeholders[_stakeholder].exists, \"Stakeholder does not exist\");\n        uint256 newTotal = totalShares - stakeholders[_stakeholder].shares + _newShares;\n        require(newTotal <= PRECISION, \"Total shares cannot exceed 100%\");", "\n        \n        stakeholders[_stakeholder].shares = _newShares;\n        totalShares = newTotal;\n        \n        emit SharesUpdated(_stakeholder, _newShares);\n    \x7d\n\n    function distributeRevenue() \n        external \n        nonReentrant \n    \x7b\n        uint256 amount = address(this).balance;\n        require(amount > 0, \"No revenue to distribute\");\n        \n        for(uint i = 0; i < stakeholderList.length; i++) \x7b\n            address stakeholder = stakeholderList[i];\n            uint256 share = amount * stakeholders[stakeholder].shares / PRECISION;\n            stakeholders[stakeholder].totalEarnings += share;\n            payable(stakeholder).transfer(share);\n        \x7d\n        \n        totalDistributed += amount;\n        emit RevenueDistributed(amount);\n    \x7d\n\n    function getStakeholderInfo(address _stakeholder) \n        external \n        view \n        returns (uint256 shares, uint256 totalEarnings, bool exists) \n    \x7b\n        Stakeholder memory stakeholder = stakeholders[_stakeholder];\n        return (stakeholder.shares, stakeholder.totalEarnings, stakeholder.exists);\n    \x7d\n\n    function getStakeholderList() ", "\n        external \n        view \n        returns (address[] memory) \n    \x7b\n        return stakeholderList;\n    \x7d\n\n    function getContractBalance() \n        external \n        view \n        returns (uint256) \n    \x7b\n        return address(this).balance;\n    \x7d", "\n\x7d"]

/-- Literal segment 2 of the 'rev' fallback template. -/
def revSeg2 : String := catChunks revSeg2Chunks

/-- Chunks of literal segment 1 of the 'gen' fallback template
(`src/backend/src/utils/aiService.ts`, `getFallbackContract`), split at line
breaks; their concatenation is exactly the source text between the template
interpolation points. -/
def genSeg1Chunks : List String := ["// SPDX-License-Identifier: MIT", "\npragma solidity ^0.8.17;\n\nimport \"@openzeppelin/contracts/access/Ownable.sol\";\n/**", "\n * @title "]

/-- Literal segment 1 of the 'gen' fallback template. -/
def genSeg1 : String := catChunks genSeg1Chunks

/-- Chunks of literal segment 2 of the 'gen' fallback template
(`src/backend/src/utils/aiService.ts`, `getFallbackContract`), split at line
breaks; their concatenation is exactly the source text between the template
interpolation points. -/
def genSeg2Chunks : List String := [" for "]

/-- Literal segment 2 of the 'gen' fallback template. -/
def genSeg2 : String := catChunks genSeg2Chunks

/-- Chunks of literal segment 3 of the 'gen' fallback template
(`src/backend/src/utils/aiService.ts`, `getFallbackContract`), split at line
breaks; their concatenation is exactly the source text between the template
interpolation points. -/
def genSeg3Chunks : List String := ["\n * @dev Standard contract for "]

/-- Literal segment 3 of the 'gen' fallback template. -/
def genSeg3 : String := catChunks genSeg3Chunks

/-- Chunks of literal segment 4 of the 'gen' fallback template
(`src/backend/src/utils/aiService.ts`, `getFallbackContract`), split at line
breaks; their concatenation is exactly the source text between the template
interpolation points. -/
def genSeg4Chunks : List String := [" transactions", "\n */", "\ncontract "]

/-- Literal segment 4 of the 'gen' fallback template. -/
def genSeg4 : String := catChunks genSeg4Chunks

/-- Chunks of literal segment 5 of the 'gen' fallback template
(`src/backend/src/utils/aiService.ts`, `getFallbackContract`), split at line
breaks; their concatenation is exactly the source text between the template
interpolation points. -/
def genSeg5Chunks : List String := [" is Ownable \x7b", "\n    // State variables\n    string public name;\n    uint256 public creationTimestamp;\n    address public creator;\n    \n    // Custom parameters", "\n    "]

/-- Literal segment 5 of the 'gen' fallback template. -/
def genSeg5 : String := catChunks genSeg5Chunks

/-- Chunks of literal segment 6 of the 'gen' fallback template
(`src/backend/src/utils/aiService.ts`, `getFallbackContract`), split at line
breaks; their concatenation is exactly the source text between the template
interpolation points. -/
def genSeg6Chunks : List String := ["\n    \n    // Events\n    event ContractInitialized(address indexed creator, uint256 timestamp);\n    event ActionPerformed(address indexed performer, string actionType, uint256 timestamp);\n    \n    /**\n     * @dev Constructor to initialize the contract\n     */\n    constructor() \x7b", "\n        name = \""]

/-- Literal segment 6 of the 'gen' fallback template. -/
def genSeg6 : String := catChunks genSeg6Chunks

/-- Chunks of literal segment 7 of the 'gen' fallback template
(`src/backend/src/utils/aiService.ts`, `getFallbackContract`), split at line
breaks; their concatenation is exactly the source text between the template
interpolation points. -/
def genSeg7Chunks : List String := ["\";", "\n        creationTimestamp = block.timestamp;\n        creator = msg.sender;\n        emit ContractInitialized(creator, creationTimestamp);\n    \x7d\n    \n    /**\n     * @dev Example function for performing an action\n     * @param actionType Type of action being performed\n     */\n    function performAction(string memory actionType) external \x7b\n        emit ActionPerformed(msg.sender, actionType, block.timestamp);\n    \x7d\n    \n    /**\n     * @dev Function to retrieve contract information\n     * @return Contract name, creator address, and creation timestamp\n     */\n    function getContractInfo() external view returns (string memory, address, uint256) \x7b\n        return (name, creator, creationTimestamp);\n    \x7d", "\n\x7d"]

/-- Literal segment 7 of the 'gen' fallback template. -/
def genSeg7 : String := catChunks genSeg7Chunks

/-- Model of JS `contractType.replace(/\s+/g, '')`: whitespace runs replaced
by the empty string, i.e. all whitespace characters removed. -/
def stripSpaces (s : String) : String := ⟨s.data.filter fun c => !(jsIsSpace c)⟩

/-- Rendering of one `Object.entries(customizations)` element in the generic
fallback template: string values are typed `string` and quoted, non-string
values are typed `uint256` and interpolated verbatim. -/
def renderCustomEntry : String × CustomValue → String
  | (k, .str v) => "string public " ++ (k ++ (" = \"" ++ (v ++ "\";")))
  | (k, .num n) => "uint256 public " ++ (k ++ (" = " ++ (toString n ++ ";")))

/-- Model of JS `Array.prototype.join(sep)`. -/
def joinSep (sep : String) : List String → String
  | [] => ""
  | [x] => x
  | x :: y :: xs => x ++ (sep ++ joinSep sep (y :: xs))

/-- The custom-parameters block of the generic fallback template:
`customizations` is falsy (undefined) → the placeholder comment; otherwise
the joined rendered entries. -/
def renderCustomBlock : Option Customizations → String
  | none => "// No custom parameters specified"
  | some cs => joinSep "\n    " (cs.map renderCustomEntry)

/-- Model of `customizations?.tokenName || "EquityToken"` followed by
template-literal interpolation of the result. -/
def tokenNameOf (customizations : Option Customizations) : String :=
  match customizations.bind fun cs => cs.lookup "tokenName" with
  | some v => if truthyCV v then renderCV v else "EquityToken"
  | none => "EquityToken"

/-- Function `getFallbackContract` (`src/backend/src/utils/aiService.ts`,
lines 420-1038): branches on substrings of `contractType` and assembles the
corresponding template literal. -/
def getFallbackContract (entityType transactionType contractType : String)
    (customizations : Option Customizations) : String :=
  if jsIncludes contractType "Equity" then
    eqSeg1 ++ (entityType ++ (eqSeg2 ++ (tokenNameOf customizations ++ eqSeg3)))
  else if jsIncludes contractType "Supply Chain" then
    supSeg1 ++ (entityType ++ supSeg2)
  else if jsIncludes contractType "Profit Sharing" then
    proSeg1 ++ (entityType ++ proSeg2)
  else if jsIncludes contractType "Revenue" then
    revSeg1 ++ (entityType ++ revSeg2)
  else
    genSeg1 ++ (stripSpaces contractType ++ (genSeg2 ++ (entityType ++
      (genSeg3 ++ (transactionType ++ (genSeg4 ++ (stripSpaces contractType ++
      (genSeg5 ++ (renderCustomBlock customizations ++ (genSeg6 ++
      (contractType ++ genSeg7)))))))))))

/-! ### aiService.ts: the provider fallback chain of `generateCustomContract` -/

/-- The three chat-completion providers, in the fixed priority order used by
both `generateCustomContract` (aiService.ts) and `processWithPersona`
(`src/unnamed/part_011`): Together, then OpenRouter, then AIML. -/
inductive Provider
  | together
  | openRouter
  | aiml
deriving DecidableEq

/-- Interface `AIResponse` of aiService.ts. -/
structure AIResponse where
  analysis : String
  code : String
  security : SecurityInfo
deriving DecidableEq

/-- Function `generateCustomContract`
(`src/backend/src/utils/aiService.ts`, lines 129-344). `response p` is the
content of provider `p`'s completion: `none` models both a thrown request
error and a response without `choices[0].message.content` (the source treats
both by falling through to the next provider). `extract` is
`extractContractCode`, the markdown/pragma code extraction applied to raw
content before validation; it is kept as a parameter because the claims under
verification do not depend on its internals. -/
def generateCustomContract (extract : String → String)
    (entityType transactionType contractType : String)
    (customizations : Option Customizations)
    (response : Provider → Option String) : AIResponse :=
  let analysisText := "Contract analysis completed by Nanjunda for " ++ entityType ++
    " with " ++ transactionType ++ " transactions."
  let tryProvider : Provider → Option String := fun p =>
    match response p with
    | some raw =>
      let contractCode := extract raw
      if validateContractCode contractCode then some contractCode else none
    | none => none
  match tryProvider .together with
  | some code =>
    { analysis := analysisText, code := code,
      security := ⟨[], ["Consider adding more specific access controls",
        "Implement explicit error messages with custom errors",
        "Add reentrancy guards where appropriate"]⟩ }
  | none =>
    match tryProvider .openRouter with
    | some code =>
      { analysis := analysisText, code := code,
        security := ⟨[], ["Review access control implementation",
          "Consider implementing additional security checks",
          "Ensure proper event emission for all state changes"]⟩ }
    | none =>
      match tryProvider .aiml with
      | some code =>
        { analysis := analysisText, code := code,
          security := ⟨[], ["Implement more granular access controls",
            "Consider using SafeMath for all arithmetic operations",
            "Add more detailed input validation"]⟩ }
      | none =>
        { analysis := "Nanjunda has analyzed your requirements for a " ++ contractType ++
            " contract for " ++ entityType ++ " with " ++ transactionType ++
            " transactions. Due to generation issues with our AI providers, we are providing a template contract that meets your requirements.",
          code := getFallbackContract entityType transactionType contractType customizations,
          security := ⟨["Template provided due to generation issues with AI providers."],
            ["Review the template contract thoroughly before deployment",
             "Consider a security audit by a professional before using in production",
             "Implement additional security checks specific to your use case"]⟩ }

/-! ### The global axios response interceptor (`src/unnamed/part_011`, lines 343-384) -/

/-- Outcome of a single HTTP attempt as seen by the axios response
interceptor. -/
inductive AxiosOutcome
  | ok
  | httpError (status : Nat)
  | noResponse
deriving DecidableEq

/-- Statuses never retried by the interceptor. -/
def nonRetryableStatus (s : Nat) : Bool := s == 400 || s == 401 || s == 403

/-- Default retry budget: `config.maxRetries = config.maxRetries || 3`. -/
def axiosDefaultMaxRetries : Nat := 3

/-- Result of driving one request through the interceptor's retry loop:
whether it eventually succeeded, how many HTTP attempts were made in total,
and the list of backoff delays (ms) slept between attempts. -/
structure RetryRun where
  succeeded : Bool
  attempts : Nat
  delays : List Nat
deriving DecidableEq

/-- One step of the interceptor loop: `responses k` is the outcome of the
attempt with `retryCount = k`. On a retryable failure with
`retryCount < maxRetries` the count is incremented, a backoff of
`2 ^ retryCount * 1000` ms (with the incremented count) is slept and the
request is reissued. `fuel` only bounds the recursion. -/
def interceptorGo (responses : Nat → AxiosOutcome) (maxRetries : Nat) :
    Nat → Nat → RetryRun
  | _, 0 => ⟨false, 0, []⟩
  | retryCount, fuel + 1 =>
    match responses retryCount with
    | .ok => ⟨true, retryCount + 1, []⟩
    | .httpError s =>
      if nonRetryableStatus s then ⟨false, retryCount + 1, []⟩
      else if retryCount < maxRetries then
        let next := interceptorGo responses maxRetries (retryCount + 1) fuel
        ⟨next.succeeded, next.attempts, 2 ^ (retryCount + 1) * 1000 :: next.delays⟩
      else ⟨false, retryCount + 1, []⟩
    | .noResponse =>
      if retryCount < maxRetries then
        let next := interceptorGo responses maxRetries (retryCount + 1) fuel
        ⟨next.succeeded, next.attempts, 2 ^ (retryCount + 1) * 1000 :: next.delays⟩
      else ⟨false, retryCount + 1, []⟩

/-- Full interceptor run for one request, starting at `retryCount = 0`. -/
def interceptorRun (responses : Nat → AxiosOutcome) (maxRetries : Nat) : RetryRun :=
  interceptorGo responses maxRetries 0 (maxRetries + 1)

/-! ### Main server (`src/unnamed/part_011`): personas and the generation endpoint -/

/-- The three personas. -/
inductive PersonaType
  | nanjunda
  | achyutha
  | sandeep
deriving DecidableEq

/-- Which provider API keys are configured in the environment. -/
structure ApiKeys where
  together : Bool
  openrouter : Bool
  aiml : Bool

/-- Provider cascade of `processWithPersona` (`src/unnamed/part_011`, lines
3105-3283) over the enabled providers: skip providers without a key; a thrown
request (`none`) or a response shorter than 50 characters falls through to
the next provider; a response of at least 50 characters is returned. Returns
the outcome together with the number of HTTP attempts actually issued. -/
def pwpGo (response : Provider → Option String) :
    List (Bool × Provider) → Except String String × Nat
  | [] => (.error "Failed to generate content with any available API", 0)
  | (enabled, p) :: rest =>
    if enabled then
      match response p with
      | some text =>
        if text.length < 50 then
          let r := pwpGo response rest
          (r.1, r.2 + 1)
        else (.ok text, 1)
      | none =>
        let r := pwpGo response rest
        (r.1, r.2 + 1)
    else pwpGo response rest

/-- Function `processWithPersona` of `src/unnamed/part_011`: providers are
tried in the fixed order Together, OpenRouter, AIML. -/
def processWithPersona (keys : ApiKeys) (response : Provider → Option String) :
    Except String String × Nat :=
  pwpGo response
    [(keys.together, .together), (keys.openrouter, .openRouter), (keys.aiml, .aiml)]

/-- The analysis-task prompt (`src/unnamed/part_011`, line 2271). -/
def analysisPrompt (contractType entityType transactionType : String) : String :=
  "Analyze the requirements for a " ++ contractType ++ " smart contract for a " ++
  entityType ++ " doing " ++ transactionType ++
  " transactions. Focus on key requirements and constraints only."

/-- The synthesis-task prompt (`src/unnamed/part_011`, lines 2279-2312),
with `template` the result of `getContractTemplate`. -/
def codePrompt (contractType entityType transactionType template : String) : String :=
  "Generate a complete, production-ready Solidity smart contract for " ++
    contractType ++
    " (" ++
    entityType ++
    ", " ++
    transactionType ++
    "). \nIMPORTANT: You must provide the COMPLETE code implementation. DO NOT use ellipsis (...) or comments like \"rest remains the same\". Every function, event, and feature must be fully implemented.\n\nRequirements:\n1. SPDX License and pragma statement\n2. All necessary imports from OpenZeppelin and Chainlink\n3. Complete contract implementation including:\n   - All state variables and their visibility\n   - All events with proper indexing\n   - All modifiers with full implementation\n   - Constructor with all necessary initialization\n   - All public and external functions fully implemented\n   - All internal and private helper functions\n4. Proper error handling with custom errors\n5. Full NatSpec documentation for all functions\n6. Gas optimizations:\n   - Use unchecked blocks for counters\n   - Use custom errors instead of require statements\n   - Use immutable for constants\n   - Optimize storage layout\n7. Security features:\n   - Access control for all sensitive functions\n   - Reentrancy protection\n   - Integer overflow protection\n   - Proper event emission\n8. Features specific to:\n   - Entity Type: " ++
    entityType ++
    "\n   - Transaction Type: " ++
    transactionType ++
    "\n   - Contract Type: " ++
    contractType ++
    "\n\nBase the implementation on this template but provide COMPLETE implementation:\n" ++
    template ++
    "\n\nRemember: DO NOT use any placeholders or ellipsis (...). Every part of the code must be completely implemented."

/-- The risk-review-task prompt (`src/unnamed/part_011`, line 2332). -/
def securityPrompt (contractType entityType transactionType : String) : String :=
  "Analyze critical security aspects for " ++ contractType ++ " (" ++ entityType ++
  ", " ++ transactionType ++
  "). List all potential vulnerabilities and provide detailed recommendations."

/-- The generated-code validation of the `/api/generate` endpoint
(`src/unnamed/part_011`, lines 2317-2322): the endpoint throws
"Generated code is incomplete or invalid" exactly when this is false. -/
def endpointCodeValid (generatedCode : String) : Bool :=
  jsIncludes generatedCode "SPDX-License-Identifier" &&
  jsIncludes generatedCode "pragma solidity" &&
  jsIncludes generatedCode "contract" &&
  !(jsIncludes generatedCode "...") &&
  !(jsIncludes generatedCode "rest of") &&
  !(jsIncludes generatedCode "remains the same")

/-- Helpers producing the lowercased line tag check used by the extraction
functions of `src/unnamed/part_011` (lines 2414-2451). -/
def lineHasTag (tag : String) (l : String) : Bool := jsIncludes (jsToLower l) tag

/-- Loop of `extractVulnerabilities` (`src/unnamed/part_011`, lines
2414-2433): collect trimmed non-blank lines after a line containing
`vulnerabilities:`, stopping at a line containing `recommendations:`. -/
def extractVulnsGo : Bool → List String → List String
  | _, [] => []
  | inSec, l :: ls =>
    if lineHasTag "vulnerabilities:" l then extractVulnsGo true ls
    else
      let here := if inSec && !(jsTrim l == "") && !(lineHasTag "recommendations:" l)
        then [jsTrim l] else []
      if inSec && lineHasTag "recommendations:" l then here
      else here ++ extractVulnsGo inSec ls

/-- Function `extractVulnerabilities` of `src/unnamed/part_011`. -/
def extractVulnerabilities (securityAnalysis : String) : List String :=
  extractVulnsGo false (jsSplitNl securityAnalysis)

/-- Loop of `extractRecommendations` (`src/unnamed/part_011`, lines
2435-2451). -/
def extractRecsGo : Bool → List String → List String
  | _, [] => []
  | inSec, l :: ls =>
    if lineHasTag "recommendations:" l then extractRecsGo true ls
    else if inSec && !(jsTrim l == "") then jsTrim l :: extractRecsGo inSec ls
    else extractRecsGo inSec ls

/-- Function `extractRecommendations` of `src/unnamed/part_011`. -/
def extractRecommendations (securityAnalysis : String) : List String :=
  extractRecsGo false (jsSplitNl securityAnalysis)

/-- Interface `ContractRequest` of `src/unnamed/part_011` as it arrives in
the request body: the three category fields are raw strings, validated only
inside the endpoint. -/
structure GenRequest where
  entityType : String
  transactionType : String
  contractType : String
  customizations : Option Customizations

/-- The `data` object of a successful generation response. -/
structure ResponseData where
  analysis : String
  code : String
  security : SecurityInfo
  gasAnalysis : List GasAnalysis
deriving DecidableEq

/-- A response of the `/api/generate` endpoint. `fromCache` is `some true`
on the cache-hit path and absent (`none`) otherwise; `status` is the HTTP
status code (200 for `res.json`). -/
structure GenResponse where
  success : Bool
  status : Nat
  data : Option ResponseData
  error : Option String
  fromCache : Option Bool
deriving DecidableEq

/-- Status-code selection of the endpoint's catch block
(`src/unnamed/part_011`, lines 2394-2404). -/
def errorStatusCode (msg : String) : Nat :=
  if jsIncludes msg "OPENROUTER_API_KEY" then 401
  else if jsIncludes msg "rate limit" then 429
  else 500

/-- Environment of the generation endpoint: the configured API keys, the
`SOLIDITY_VERSION` env var, and the two pure helpers whose internals no
claim depends on: `tmpl` is `getContractTemplate(contractType, entityType,
transactionType, customizations)` and `gas` is the static heuristic
`analyzeGasUsage`. -/
structure GenEnv where
  keys : ApiKeys
  solidityVersion : Option String
  tmpl : String → String → String → Option Customizations → String
  gas : String → List GasAnalysis

/-- Per-request observable trace: the prompt submitted for each persona task
and the total number of provider HTTP attempts. -/
structure GenTrace where
  prompts : List (PersonaType × String)
  providerCalls : Nat
deriving DecidableEq

/-- The request fingerprint used as cache key by the generation endpoint:
`generateCacheKey(entityType, transactionType, contractType)` on the raw
request fields. -/
def requestFingerprint (env : GenEnv) (req : GenRequest) : String :=
  generateCacheKey req.entityType req.transactionType req.contractType env.solidityVersion

/-- Handler of `app.post('/api/generate')` (`src/unnamed/part_011`, lines
2204-2412). `B t p` is the content of provider `p`'s completion for persona
task `t` (`none` models a failed call). Steps, in source order: cache check
(TTL only), request validation, the three persona tasks (issued by
`Promise.all`: all three prompts are submitted regardless of the others'
outcomes), endpoint code validation, cache store, response; any task failure
reaches the catch block, which answers `success: false` with
`errorStatusCode` of the first failure's message (the source's
`Promise.all` surfaces one of the rejection messages; all of them map to
status 500). -/
def handleGenerate (env : GenEnv) (now : Nat) (cache : ContractCache)
    (req : GenRequest) (B : PersonaType → Provider → Option String) :
    GenResponse × ContractCache × GenTrace :=
  let cacheKey := requestFingerprint env req
  let hit := match cacheGet cache cacheKey with
    | some cached => if now - cached.timestamp < CACHE_DURATION then some cached else none
    | none => none
  match hit with
  | some cached =>
    ({ success := true, status := 200,
       data := some ⟨cached.analysis, cached.code, cached.security, cached.gasAnalysis⟩,
       error := none, fromCache := some true }, cache, ⟨[], 0⟩)
  | none =>
    if !(validRequestStrings req.entityType req.transactionType req.contractType) then
      ({ success := false, status := 400, data := none,
         error := some "Invalid entity type, transaction type, or contract type",
         fromCache := none }, cache, ⟨[], 0⟩)
    else
      let aPrompt := analysisPrompt req.contractType req.entityType req.transactionType
      let template := env.tmpl req.contractType req.entityType req.transactionType
        req.customizations
      let cPrompt := codePrompt req.contractType req.entityType req.transactionType template
      let sPrompt := securityPrompt req.contractType req.entityType req.transactionType
      let aRes := processWithPersona env.keys (B .nanjunda)
      let cRes := processWithPersona env.keys (B .achyutha)
      let sRes := processWithPersona env.keys (B .sandeep)
      let trace : GenTrace :=
        ⟨[(.nanjunda, aPrompt), (.achyutha, cPrompt), (.sandeep, sPrompt)],
         aRes.2 + cRes.2 + sRes.2⟩
      match aRes.1, cRes.1, sRes.1 with
      | .ok analysis, .ok generatedCode, .ok securityAnalysis =>
        if endpointCodeValid generatedCode then
          let security : SecurityInfo :=
            ⟨extractVulnerabilities securityAnalysis,
             extractRecommendations securityAnalysis⟩
          let entry : CacheEntry :=
            { code := generatedCode, timestamp := now, analysis := analysis,
              security := security, gasAnalysis := env.gas generatedCode,
              fragments := ⟨template, [], req.customizations.getD []⟩,
              metadata := ⟨env.solidityVersion.getD "0.8.20", "OpenZeppelin 5.0.0",
                [("@openzeppelin/contracts-upgradeable", "^5.0.0"),
                 ("@openzeppelin/contracts", "^5.0.0")]⟩,
              validation := ⟨now, .valid, []⟩ }
          ({ success := true, status := 200,
             data := some ⟨analysis, generatedCode, security, env.gas generatedCode⟩,
             error := none, fromCache := none },
           cacheSet cache cacheKey entry, trace)
        else
          ({ success := false,
             status := errorStatusCode "Generated code is incomplete or invalid",
             data := none, error := some "Generated code is incomplete or invalid",
             fromCache := none }, cache, trace)
      | .error msg, _, _ =>
        ({ success := false, status := errorStatusCode msg, data := none,
           error := some msg, fromCache := none }, cache, trace)
      | _, .error msg, _ =>
        ({ success := false, status := errorStatusCode msg, data := none,
           error := some msg, fromCache := none }, cache, trace)
      | _, _, .error msg =>
        ({ success := false, status := errorStatusCode msg, data := none,
           error := some msg, fromCache := none }, cache, trace)

/-- Cache states reachable by a server process (whose environment `env` is
fixed at startup): the empty map, then whatever `handleGenerate` leaves
behind. -/
inductive ReachableCache (env : GenEnv) : ContractCache → Prop
  | empty : ReachableCache env []
  | step {cache : ContractCache} (now : Nat) (req : GenRequest)
      (B : PersonaType → Provider → Option String) :
      ReachableCache env cache → ReachableCache env (handleGenerate env now cache req B).2.1

/-! ### Sequential persona variant (`src/backend/src/server.ts`) -/

/-- The `personaPrompts` prefixes of `src/backend/src/server.ts` (and of the
first aiService variant), prepended to the user prompt of each call. -/
def serverPersonaPrefix : PersonaType → String
  | .nanjunda => "As Nanjunda, analyze the contract requirements and provide detailed insights: "
  | .achyutha => "As Achyutha, optimize and generate the smart contract code with best practices: "
  | .sandeep => "As Sandeep, perform security analysis and ensure compliance: "

/-- The `basePrompt` of `src/backend/src/server.ts` (lines 95-100); `cjson`
stands for `JSON.stringify(customizations)`. -/
def serverBasePrompt (entityType transactionType contractType cjson : String) : String :=
  "\n      Entity Type: " ++ entityType ++
  "\n      Transaction Type: " ++ transactionType ++
  "\n      Contract Type: " ++ contractType ++
  "\n      Additional Customizations: " ++ cjson ++ "\n    "

/-- Sequential pipeline of the `/api/generate` handler of
`src/backend/src/server.ts` (lines 91-128): the analysis output is the user
prompt of the synthesis call, whose output is the user prompt of the security
call. `B n` is the provider's answer to the n-th call. Returns the submitted
`(persona, user prompt)` pairs in call order, and the contract code of the
response. -/
def serverHandleGenerate (entityType transactionType contractType cjson : String)
    (B : Nat → String) : List (PersonaType × String) × String :=
  let basePrompt := serverBasePrompt entityType transactionType contractType cjson
  let p1 := serverPersonaPrefix .nanjunda ++ basePrompt
  let analysis := B 0
  let p2 := serverPersonaPrefix .achyutha ++ analysis
  let code := B 1
  let p3 := serverPersonaPrefix .sandeep ++ code
  ([(.nanjunda, p1), (.achyutha, p2), (.sandeep, p3)], code)

/-! ### Placeholder-marker framework -/

/-- The placeholder markers rejected by `validateContractCode`. -/
def markerPatterns : List String :=
  ["...", "// TODO", "// Implementation", "rest of the code", "// Add implementation"]

/-- No placeholder marker occurs in `s`. -/
def noMarkers (s : String) : Prop := ∀ p ∈ markerPatterns, ¬ p.data <:+: s.data

/-- Decidable version of `noMarkers`. -/
def noMarkersB (s : String) : Bool :=
  markerPatterns.all fun p => containsL p.data s.data == false

theorem noMarkers_of_B {s : String} (h : noMarkersB s = true) : noMarkers s := by
  intro p hp
  have := (List.all_eq_true.mp h) p hp
  exact not_infix_of_containsL_eq_false (by simpa using this)

/-- Whether a string starts with a line break. -/
def nlHead (s : String) : Bool := s.data.head? == some '\n'

/-- Chunk-list side condition for `noInfix_catChunks`: no chunk contains the
pattern, and every chunk after the first starts with a line break. -/
def chunksOk (p : List Char) (chunks : List String) : Bool :=
  (chunks.all fun s => containsL p s.data == false) && chunks.tail.all nlHead

theorem noSpanR_nl {p : List Char} (hnl : '\n' ∉ p) : noSpanR p ['\n'] = true := by
  rw [noSpanR, List.all_eq_true]
  intro k hk
  rw [List.mem_range] at hk
  rcases Nat.eq_zero_or_pos k with rfl | hpos
  · simp
  have hdrop : p.drop k ≠ [] := by
    intro h
    rw [List.drop_eq_nil_iff] at h
    omega
  rcases hd : p.drop k with _ | ⟨a, as⟩
  · exact absurd hd hdrop
  have ha : a ∈ p := by
    have : a ∈ p.drop k := by rw [hd]; exact List.mem_cons_self a as
    exact List.drop_subset k p this
  have hane : (a == '\n') = false := by
    simp only [beq_eq_false_iff_ne, ne_eq]
    intro h
    exact hnl (h ▸ ha)
  have hane' : ('\n' == a) = false := by
    simp only [beq_eq_false_iff_ne, ne_eq]
    intro h
    exact hnl (h ▸ ha)
  simp [List.isPrefixOf, hane, hane']

theorem all_tail_of_all {α : Type} {p : α → Bool} {l : List α} (h : l.all p = true) :
    l.tail.all p = true := by
  cases l with
  | nil => simp
  | cons a as => simp_all [List.all_cons]

theorem noInfix_catChunks {p : List Char} (hnl : '\n' ∉ p) (hne : p ≠ []) :
    ∀ (chunks : List String), chunksOk p chunks = true →
      ¬ p <:+: (catChunks chunks).data := by
  intro chunks
  induction chunks with
  | nil =>
    intro _ h
    rw [show (catChunks []).data = [] from rfl, List.infix_nil] at h
    exact hne h
  | cons c cs ih =>
    intro hok
    rw [chunksOk, Bool.and_eq_true, List.all_cons, Bool.and_eq_true] at hok
    obtain ⟨⟨hc, hcs⟩, htl⟩ := hok
    have hcontains : containsL p c.data = false := by simpa using hc
    have htl' : cs.all nlHead = true := by simpa using htl
    have ihok : chunksOk p cs = true := by
      rw [chunksOk, Bool.and_eq_true]
      exact ⟨hcs, all_tail_of_all htl'⟩
    have hdata : (catChunks (c :: cs)).data = c.data ++ (catChunks cs).data := by
      simp [catChunks, strData_append]
    rw [hdata]
    cases cs with
    | nil =>
      rw [show (catChunks ([] : List String)).data = [] from rfl, List.append_nil]
      exact not_infix_of_containsL_eq_false hcontains
    | cons c2 cs' =>
      have hc2 : nlHead c2 = true := by
        have := (List.all_eq_true.mp htl') c2 (by simp)
        simpa using this
      rcases h2 : c2.data with _ | ⟨a, t⟩
      · rw [nlHead, h2] at hc2
        simp at hc2
      have ha : a = '\n' := by
        rw [nlHead, h2] at hc2
        simpa using hc2
      have hb : (catChunks (c2 :: cs')).data = ['\n'] ++ (t ++ (catChunks cs').data) := by
        simp [catChunks, strData_append, h2, ha]
      exact noInfix_append_r hb (not_infix_of_containsL_eq_false hcontains)
        (ih ihok) (noSpanR_nl hnl)

theorem catChunks_head_decomp (c : String) (cs : List String) :
    (catChunks (c :: cs)).data = c.data ++ (catChunks cs).data := by
  simp [catChunks, strData_append]

theorem catChunks_last_decomp : ∀ (chunks : List String),
    (catChunks chunks).data =
      (catChunks chunks.dropLast).data ++ (chunks.getLast?.getD "").data
  | [] => by simp [catChunks]
  | [c] => by simp [catChunks, strData_append]
  | c :: c2 :: cs => by
    rw [catChunks_head_decomp, catChunks_last_decomp (c2 :: cs)]
    simp [catChunks, strData_append, List.append_assoc]

theorem strLength_append (a b : String) : (a ++ b).length = a.length + b.length :=
  List.length_append a.data b.data

theorem catChunks_length : ∀ (chunks : List String),
    (catChunks chunks).length = (chunks.map String.length).sum
  | [] => rfl
  | c :: cs => by
    rw [show catChunks (c :: cs) = c ++ catChunks cs from rfl, strLength_append,
      catChunks_length cs]
    simp

/-! ### Fingerprint structure lemmas -/

theorem sep_inj {sep : Char} : ∀ {a b x y : List Char}, sep ∉ a → sep ∉ b →
    a ++ sep :: x = b ++ sep :: y → a = b ∧ x = y := by
  intro a
  induction a with
  | nil =>
    intro b x y _ hb h
    cases b with
    | nil => simpa using h
    | cons d b' =>
      rw [List.nil_append, List.cons_append, List.cons.injEq] at h
      exact absurd (h.1 ▸ List.mem_cons_self d b') hb
  | cons c a' ih =>
    intro b x y ha hb h
    cases b with
    | nil =>
      rw [List.nil_append, List.cons_append, List.cons.injEq] at h
      exact absurd (h.1.symm ▸ List.mem_cons_self c a') ha
    | cons d b' =>
      rw [List.cons_append, List.cons_append, List.cons.injEq] at h
      have hmem : sep ∉ a' := fun hm => ha (List.mem_cons_of_mem c hm)
      have hmem' : sep ∉ b' := fun hm => hb (List.mem_cons_of_mem d hm)
      obtain ⟨h1, h2⟩ := ih hmem hmem' h.2
      exact ⟨by rw [h.1, h1], h2⟩

/-- The character data of a generated cache key, in separator-exposing
form. -/
theorem generateCacheKey_data (e t c : String) (v : Option String) :
    (generateCacheKey e t c v).data =
      e.data ++ '_' :: (t.data ++ '_' :: (c.data ++ '_' :: (v.getD "0.8.20").data)) := by
  simp [generateCacheKey, strData_append]

/-- None of the enum value strings contains an underscore. -/
theorem entity_str_no_underscore (e : EntityType) : '_' ∉ e.str.data := by
  cases e <;> decide

theorem transaction_str_no_underscore (t : TransactionType) : '_' ∉ t.str.data := by
  cases t <;> decide

theorem contract_str_no_underscore (c : ContractType) : '_' ∉ c.str.data := by
  cases c <;> decide

theorem entity_str_injective {e e' : EntityType} (h : e.str = e'.str) : e = e' := by
  cases e <;> cases e' <;> first | rfl | (exact absurd h (by decide))

theorem transaction_str_injective {t t' : TransactionType} (h : t.str = t'.str) : t = t' := by
  cases t <;> cases t' <;> first | rfl | (exact absurd h (by decide))

theorem contract_str_injective {c c' : ContractType} (h : c.str = c'.str) : c = c' := by
  cases c <;> cases c' <;> first | rfl | (exact absurd h (by decide))

theorem generateCacheKey_inj {e e' : EntityType} {t t' : TransactionType}
    {c c' : ContractType} {v : Option String}
    (h : generateCacheKey e.str t.str c.str v = generateCacheKey e'.str t'.str c'.str v) :
    e = e' ∧ t = t' ∧ c = c' := by
  rw [String.ext_iff, generateCacheKey_data, generateCacheKey_data] at h
  obtain ⟨h1, h2⟩ := sep_inj (entity_str_no_underscore e) (entity_str_no_underscore e') h
  obtain ⟨h3, h4⟩ := sep_inj (transaction_str_no_underscore t)
    (transaction_str_no_underscore t') h2
  obtain ⟨h5, _⟩ := sep_inj (contract_str_no_underscore c)
    (contract_str_no_underscore c') h4
  exact ⟨entity_str_injective (String.ext h1),
    transaction_str_injective (String.ext h3),
    contract_str_injective (String.ext h5)⟩

/-! ### Concrete fixtures shared by several closed proofs -/

/-- A well-formed 138-character contract text used as provider response in
concrete scenarios: it passes both the endpoint code checks and the
50-character minimum of `processWithPersona`. -/
def sampleCode : String :=
  "// SPDX-License-Identifier: MIT\npragma solidity ^0.8.20;\ncontract Sample \x7b uint256 public x; constructor() \x7b x = 1; \x7d \x7d // sample body"

/-- A concrete endpoint environment: all three provider keys configured, no
`SOLIDITY_VERSION` override, and trivial template/gas helpers. -/
def sampleEnv : GenEnv :=
  { keys := ⟨true, true, true⟩, solidityVersion := none,
    tmpl := fun _ _ _ _ => "TEMPLATE", gas := fun _ => [] }

/-- Behavior in which every provider call succeeds with `sampleCode`. -/
def allOkB : PersonaType → Provider → Option String := fun _ _ => some sampleCode

/-- Behavior in which every provider call fails. -/
def allFailB : PersonaType → Provider → Option String := fun _ _ => none

/-- A valid request with no customizations. -/
def reqCustomA : GenRequest := ⟨"LLP", "B2B", "Equity Tokenization", none⟩

/-- The same category triple with different customizations. -/
def reqCustomB : GenRequest :=
  ⟨"LLP", "B2B", "Equity Tokenization", some [("tokenName", CustomValue.str "MyToken")]⟩

/-- C3, counterexample: two requests that differ only in their
customizations have the same fingerprint — `generateCacheKey` does not read
the customizations at all — so the second request is even served the first
request's cached result. This refutes the claim that a change in
customizations produces a different fingerprint. -/
theorem C3_counterexample :
    reqCustomA.customizations ≠ reqCustomB.customizations ∧
    requestFingerprint sampleEnv reqCustomA = requestFingerprint sampleEnv reqCustomB ∧
    (handleGenerate sampleEnv 5
        (handleGenerate sampleEnv 0 [] reqCustomA allOkB).2.1 reqCustomB allFailB).1.fromCache
      = some true := by
  refine ⟨by decide, rfl, by rfl⟩

/-- C3, amended: the fingerprint is deterministic and changes whenever the
organization type, transaction pattern, artifact category or the
Solidity-version tag changes, but it is independent of the customizations:
(1) over the enum values, equal keys force an equal category triple;
(2) a different version string gives a different key;
(3) the fingerprint of a request ignores the customizations field. -/
theorem C3_amended_thm :
    (∀ (e e' : EntityType) (t t' : TransactionType) (c c' : ContractType)
        (v : Option String),
      generateCacheKey e.str t.str c.str v = generateCacheKey e'.str t'.str c'.str v
        ↔ (e = e' ∧ t = t' ∧ c = c')) ∧
    (∀ (e : EntityType) (t : TransactionType) (c : ContractType) (v v' : String),
      v ≠ v' →
      generateCacheKey e.str t.str c.str (some v) ≠
        generateCacheKey e.str t.str c.str (some v')) ∧
    (∀ (env : GenEnv) (e t c : String) (cs cs' : Option Customizations),
      requestFingerprint env ⟨e, t, c, cs⟩ = requestFingerprint env ⟨e, t, c, cs'⟩) := by
  refine ⟨?_, ?_, ?_⟩
  · intro e e' t t' c c' v
    constructor
    · exact generateCacheKey_inj
    · rintro ⟨rfl, rfl, rfl⟩
      rfl
  · intro e t c v v' hne h
    rw [String.ext_iff, generateCacheKey_data, generateCacheKey_data] at h
    obtain ⟨_, h2⟩ := sep_inj (entity_str_no_underscore e) (entity_str_no_underscore e) h
    obtain ⟨_, h4⟩ := sep_inj (transaction_str_no_underscore t)
      (transaction_str_no_underscore t) h2
    obtain ⟨_, h6⟩ := sep_inj (contract_str_no_underscore c)
      (contract_str_no_underscore c) h4
    exact hne (String.ext h6)
  · intro env e t c cs cs'
    rfl

/-- C3, witness for the amended theorem: concrete instances of all three
conjuncts, including a discharged version-change hypothesis. -/
theorem C3_amended_witness :
    generateCacheKey EntityType.llp.str TransactionType.b2b.str
        ContractType.supplyChain.str (some "0.8.20") ≠
      generateCacheKey EntityType.llp.str TransactionType.b2b.str
        ContractType.supplyChain.str (some "0.8.21") :=
  C3_amended_thm.2.1 .llp .b2b .supplyChain "0.8.20" "0.8.21" (by decide)

/-! ### Interceptor retry characterization -/

/-- A behavior is uniformly retryable when every attempt fails with a
transport failure (no response: timeouts and network errors) or an HTTP
status outside the non-retryable set (e.g. 429 rate limiting). -/
def retryableBehavior (responses : Nat → AxiosOutcome) : Prop :=
  ∀ k, responses k = .noResponse ∨
    ∃ s, responses k = .httpError s ∧ nonRetryableStatus s = false

theorem interceptorGo_retryable {responses : Nat → AxiosOutcome}
    (hresp : retryableBehavior responses) :
    ∀ (fuel rc maxR : Nat), rc + fuel = maxR + 1 → rc ≤ maxR →
      interceptorGo responses maxR rc fuel =
        ⟨false, maxR + 1, (List.range (maxR - rc)).map fun k => 2 ^ (rc + k + 1) * 1000⟩ := by
  intro fuel
  induction fuel with
  | zero => intro rc maxR h1 h2; omega
  | succ fuel ih =>
    intro rc maxR h1 h2
    have hstep : interceptorGo responses maxR rc (fuel + 1) =
        (if rc < maxR then
          ⟨(interceptorGo responses maxR (rc + 1) fuel).succeeded,
           (interceptorGo responses maxR (rc + 1) fuel).attempts,
           2 ^ (rc + 1) * 1000 :: (interceptorGo responses maxR (rc + 1) fuel).delays⟩
        else ⟨false, rc + 1, []⟩) := by
      rcases hresp rc with h | ⟨s, h, hs⟩
      · rw [interceptorGo, h]
      · rw [interceptorGo, h]
        simp [hs]
    rw [hstep]
    rcases Nat.lt_or_ge rc maxR with hlt | hge
    · rw [if_pos hlt, ih (rc + 1) maxR (by omega) (by omega)]
      have hsub : maxR - rc = (maxR - (rc + 1)) + 1 := by omega
      rw [hsub, List.range_succ_eq_map, List.map_cons, List.map_map,
        RetryRun.mk.injEq]
      refine ⟨rfl, rfl, ?_⟩
      rw [List.cons.injEq]
      constructor
      · norm_num
      · apply List.map_congr_left
        intro k _
        simp only [Function.comp]
        have h3 : rc + 1 + k + 1 = rc + (k + 1) + 1 := by omega
        rw [h3]
    · have heq : rc = maxR := by omega
      rw [if_neg (by omega), heq]
      have h0 : maxR - maxR = 0 := by omega
      rw [h0]
      rfl

/-- Full-run version: any uniformly retryable behavior exhausts the retry
budget: `n + 1` attempts with backoff delays `2^1·1000, …, 2^n·1000`. -/
theorem interceptorRun_retryable {responses : Nat → AxiosOutcome}
    (hresp : retryableBehavior responses) (n : Nat) :
    interceptorRun responses n =
      ⟨false, n + 1, (List.range n).map fun k => 2 ^ (k + 1) * 1000⟩ := by
  rw [interceptorRun, interceptorGo_retryable hresp (n + 1) 0 n (by omega) (by omega)]
  simp

/-- C8, counterexample: under the interceptor's actual default budget, a
provider that always times out is attempted 4 times (3 retries, not 2) and
the first backoff delay is 2000 ms, not 1000 ms; the delays are
2s, 4s, 8s. -/
theorem C8_counterexample :
    interceptorRun (fun _ => .noResponse) axiosDefaultMaxRetries =
      ⟨false, 4, [2000, 4000, 8000]⟩ ∧
    axiosDefaultMaxRetries ≠ 2 ∧
    (interceptorRun (fun _ => .noResponse) axiosDefaultMaxRetries).delays.head? ≠
      some 1000 := by
  refine ⟨by rfl, by decide, by decide⟩

/-- C8, amended: every retryable failure (timeout, transport error, or any
HTTP status other than 400/401/403 — in particular 429 rate limiting) is
retried on the same request with exponential backoff `2^k` seconds for the
k-th retry, under the per-request budget `maxRetries` whose default is 3 (so
the delays at the default are 2s, 4s, 8s, the largest being 8s); when the
budget is exhausted the request is rejected, and `processWithPersona` then
moves to the next provider of the fixed order, here from Together to
OpenRouter. -/
theorem C8_amended_thm :
    (∀ (responses : Nat → AxiosOutcome) (n : Nat), retryableBehavior responses →
      interceptorRun responses n =
        ⟨false, n + 1, (List.range n).map fun k => 2 ^ (k + 1) * 1000⟩) ∧
    axiosDefaultMaxRetries = 3 ∧
    interceptorRun (fun _ => .noResponse) axiosDefaultMaxRetries =
      ⟨false, 4, [2000, 4000, 8000]⟩ ∧
    (∀ (keys : ApiKeys) (resp : Provider → Option String) (txt : String),
      keys.together = true → keys.openrouter = true →
      resp .together = none → resp .openRouter = some txt → 50 ≤ txt.length →
      processWithPersona keys resp = (.ok txt, 2)) := by
  refine ⟨fun responses n h => interceptorRun_retryable h n, rfl, by rfl, ?_⟩
  intro keys resp txt hk1 hk2 h1 h2 hlen
  rw [processWithPersona, hk1, hk2]
  simp only [pwpGo, h1, h2, if_true]
  have hl : (txt.length < 50) = False := by simp; omega
  simp [hl]

/-- C8, witness for the amended theorem at concrete inputs: a 429-rate-limit
behavior under budget 1, and a concrete provider fallback. -/
theorem C8_amended_witness :
    interceptorRun (fun _ => .httpError 429) 1 = ⟨false, 2, [2000]⟩ ∧
    processWithPersona ⟨true, true, true⟩
      (fun p => if p = .together then none else some sampleCode) =
      (.ok sampleCode, 2) := by
  constructor
  · exact C8_amended_thm.1 (fun _ => .httpError 429) 1
      (fun k => Or.inr ⟨429, rfl, by decide⟩)
  · exact C8_amended_thm.2.2.2 ⟨true, true, true⟩ _ sampleCode rfl rfl rfl rfl
      (by decide)

/-- A 587-character contract text that passes `validateContractCode`. -/
def sampleLongCode : String :=
  "// SPDX-License-Identifier: MIT\npragma solidity ^0.8.20;\ncontract Sample \x7b\n    uint256 public x;\n    constructor() \x7b x = 1; \x7d\n    function f() public \x7b x = x + 1; \x7d\n    // padding line 00 to reach the validator minimum length\n    // padding line 01 to reach the validator minimum length\n    // padding line 02 to reach the validator minimum length\n    // padding line 03 to reach the validator minimum length\n    // padding line 04 to reach the validator minimum length\n    // padding line 05 to reach the validator minimum length\n    // padding line 06 to reach the validator minimum length\n    // padding line 07 to reach the validator minimum length\n\x7d"

/-- C7: an authentication failure gets zero retries and the chain moves on:
(1) a request answered with HTTP 401 is rejected by the interceptor after
exactly one attempt, with no retries and no backoff delays, for every retry
budget; (2) in the provider chain of `generateCustomContract`, when the
first provider (Together) fails and the second (OpenRouter) returns content
whose extraction passes validation, the returned artifact is exactly the
second provider's validated content. -/
theorem C7_thm :
    (∀ (responses : Nat → AxiosOutcome) (maxRetries : Nat),
      responses 0 = .httpError 401 →
      interceptorRun responses maxRetries = ⟨false, 1, []⟩) ∧
    (∀ (extract : String → String) (e t c : String) (cs : Option Customizations)
        (resp : Provider → Option String) (raw : String),
      resp .together = none → resp .openRouter = some raw →
      validateContractCode (extract raw) = true →
      generateCustomContract extract e t c cs resp =
        ⟨"Contract analysis completed by Nanjunda for " ++ e ++ " with " ++ t ++
           " transactions.",
         extract raw,
         ⟨[], ["Review access control implementation",
               "Consider implementing additional security checks",
               "Ensure proper event emission for all state changes"]⟩⟩) := by
  constructor
  · intro responses maxRetries h
    rw [interceptorRun, interceptorGo, h]
    simp [nonRetryableStatus]
  · intro extract e t c cs resp raw h1 h2 hv
    simp [generateCustomContract, h1, h2, hv]

/-- C7, witness: concrete always-401 behavior and a concrete two-provider
chain in which Together fails and OpenRouter answers with a validated
contract. -/
theorem C7_witness :
    interceptorRun (fun _ => .httpError 401) 3 = ⟨false, 1, []⟩ ∧
    generateCustomContract id "LLP" "B2B" "Supply Chain" none
        (fun p => if p = .together then none else some sampleLongCode) =
      ⟨"Contract analysis completed by Nanjunda for " ++ "LLP" ++ " with " ++ "B2B" ++
         " transactions.",
       id sampleLongCode,
       ⟨[], ["Review access control implementation",
             "Consider implementing additional security checks",
             "Ensure proper event emission for all state changes"]⟩⟩ :=
  ⟨C7_thm.1 (fun _ => .httpError 401) 3 rfl,
   C7_thm.2 id "LLP" "B2B" "Supply Chain" none
     (fun p => if p = .together then none else some sampleLongCode) sampleLongCode
     rfl rfl (by rfl)⟩

/-! ### C2: cache validity -/

/-- The cache state after one successful generation of `reqCustomA`. -/
def c2State : ContractCache := (handleGenerate sampleEnv 0 [] reqCustomA allOkB).2.1

/-- A registry in which every package has advanced to version 6.0.0, so the
stored `^5.0.0` dependencies are outdated. -/
def bumpedRegistry : String → Option String := fun _ => some "6.0.0"

/-- C2, counterexample: with a dependency bumped to 6.0.0 and the TTL not
elapsed, `getFromCache` correctly answers `None`, but the generation
endpoint's own cache check — a read path that serves cached results — still
serves the entry (`fromCache = true`, `success = true`): the dependency
check does not hold on every read path. Moreover `getFromCache` itself keeps
serving when the registry version merely differs without being
lexicographically greater (4.0.0 vs the recorded 5.0.0). -/
theorem C2_counterexample :
    (getFromCache bumpedRegistry 5 c2State (requestFingerprint sampleEnv reqCustomA)).1
      = none ∧
    (handleGenerate sampleEnv 5 c2State reqCustomA allFailB).1.success = true ∧
    (handleGenerate sampleEnv 5 c2State reqCustomA allFailB).1.fromCache = some true ∧
    (getFromCache (fun _ => some "4.0.0") 5 c2State
        (requestFingerprint sampleEnv reqCustomA)).1 ≠ none := by
  exact ⟨by rfl, by rfl, by rfl, by decide⟩

/-- C2, amended: `getFromCache` returns an entry iff it is present, its age
(now − lastChecked) does not exceed the 7-day TTL, and no tracked dependency
is reported outdated — where outdated means the recorded version with its
leading caret stripped compares lexicographically below the registry's
current version (a current version that merely differs does not invalidate);
absent keys give `None`. The generation endpoint's cache check, however,
consults only the TTL: whenever a fresh-enough entry is present it is served
with `fromCache = true`, with no dependency check on that read path. -/
theorem C2_amended_thm :
    (∀ (registry : String → Option String) (now : Nat) (cache : ContractCache)
        (key : String) (entry : CacheEntry), cacheGet cache key = some entry →
      ((getFromCache registry now cache key).1 = some entry ↔
        (¬ now - entry.validation.lastChecked > CACHE_DURATION ∧
         checkDependencyVersions registry entry.metadata.dependencies = []))) ∧
    (∀ (registry : String → Option String) (now : Nat) (cache : ContractCache)
        (key : String), cacheGet cache key = none →
      (getFromCache registry now cache key).1 = none) ∧
    (∀ (env : GenEnv) (now : Nat) (cache : ContractCache) (req : GenRequest)
        (B : PersonaType → Provider → Option String) (entry : CacheEntry),
      cacheGet cache (requestFingerprint env req) = some entry →
      now - entry.timestamp < CACHE_DURATION →
      (handleGenerate env now cache req B).1 =
        ⟨true, 200, some ⟨entry.analysis, entry.code, entry.security, entry.gasAnalysis⟩,
         none, some true⟩) := by
  refine ⟨?_, ?_, ?_⟩
  · intro registry now cache key entry hget
    simp only [getFromCache, hget]
    by_cases httl : now - entry.validation.lastChecked > CACHE_DURATION
    · rw [if_pos httl]
      simp [httl]
    · rw [if_neg httl]
      by_cases hdep : checkDependencyVersions registry entry.metadata.dependencies = []
      · simp [hdep, httl]
      · have hfalse : (checkDependencyVersions registry entry.metadata.dependencies).isEmpty
            = false := by
          simpa [List.isEmpty_iff] using hdep
        simp [hfalse, hdep]
  · intro registry now cache key hget
    simp [getFromCache, hget]
  · intro env now cache req B entry hget httl
    simp only [handleGenerate, hget]
    rw [if_pos httl]

/-- The entry that the successful generation of `reqCustomA` stores. -/
def c2Entry : CacheEntry :=
  { code := sampleCode, timestamp := 0, analysis := sampleCode,
    security := ⟨extractVulnerabilities sampleCode, extractRecommendations sampleCode⟩,
    gasAnalysis := [],
    fragments := ⟨"TEMPLATE", [], []⟩,
    metadata := ⟨"0.8.20", "OpenZeppelin 5.0.0",
      [("@openzeppelin/contracts-upgradeable", "^5.0.0"),
       ("@openzeppelin/contracts", "^5.0.0")]⟩,
    validation := ⟨0, .valid, []⟩ }

/-- C2, witness for the amended theorem: the stored entry is served by
`getFromCache` when the registry has no version information, and by the
endpoint within TTL. -/
theorem C2_amended_witness :
    (getFromCache (fun _ => none) 5 c2State
        (requestFingerprint sampleEnv reqCustomA)).1 = some c2Entry ∧
    (handleGenerate sampleEnv 5 c2State reqCustomA allFailB).1 =
      ⟨true, 200, some ⟨c2Entry.analysis, c2Entry.code, c2Entry.security,
        c2Entry.gasAnalysis⟩, none, some true⟩ := by
  have hget : cacheGet c2State (requestFingerprint sampleEnv reqCustomA) =
      some c2Entry := by rfl
  exact ⟨(C2_amended_thm.1 (fun _ => none) 5 c2State _ c2Entry hget).mpr
      ⟨by decide, rfl⟩,
    C2_amended_thm.2.2 sampleEnv 5 c2State reqCustomA allFailB c2Entry hget
      (by decide)⟩

/-! ### C9: request validation -/

theorem lookup_eq_none_of_forall {cache : ContractCache} {key : String}
    (h : ∀ p ∈ cache, p.1 ≠ key) : cacheGet cache key = none := by
  induction cache with
  | nil => rfl
  | cons p rest ih =>
    have hne : p.1 ≠ key := h p (by simp)
    have hbeq : (key == p.1) = false := by
      simp only [beq_eq_false_iff_ne, ne_eq]
      exact fun hk => hne hk.symm
    rw [cacheGet, List.lookup, hbeq]
    exact ih fun q hq => h q (by simp [hq])

/-- No enum value string contains an underscore. -/
theorem values_no_underscore :
    (∀ s ∈ entityTypeValues, '_' ∉ s.data) ∧
    (∀ s ∈ transactionTypeValues, '_' ∉ s.data) ∧
    (∀ s ∈ contractTypeValues, '_' ∉ s.data) := by decide

/-- The character data of a fingerprint, with the version tag split off. -/
theorem requestFingerprint_data (env : GenEnv) (req : GenRequest) :
    (requestFingerprint env req).data =
      (req.entityType.data ++ '_' :: (req.transactionType.data ++ '_' ::
        req.contractType.data)) ++
      ('_' :: (env.solidityVersion.getD "0.8.20").data) := by
  rw [requestFingerprint, generateCacheKey_data]
  simp [List.append_assoc]

/-- An invalid request's fingerprint differs from every valid request's
fingerprint, provided the configured version tag has no underscore. -/
theorem invalid_fingerprint_ne {env : GenEnv} {req req' : GenRequest}
    (hinvalid : validRequestStrings req.entityType req.transactionType
      req.contractType = false)
    (hvalid : validRequestStrings req'.entityType req'.transactionType
      req'.contractType = true) :
    requestFingerprint env req ≠ requestFingerprint env req' := by
  intro h
  rw [String.ext_iff, requestFingerprint_data, requestFingerprint_data] at h
  have h2 := (List.append_inj' h rfl).1
  have hvalid' := hvalid
  rw [validRequestStrings, Bool.and_eq_true, Bool.and_eq_true] at hvalid'
  obtain ⟨⟨he', ht'⟩, hc'⟩ := hvalid'
  have heMem : req'.entityType ∈ entityTypeValues := by simpa using he'
  have htMem : req'.transactionType ∈ transactionTypeValues := by simpa using ht'
  have hcMem : req'.contractType ∈ contractTypeValues := by simpa using hc'
  have heC : '_' ∉ req'.entityType.data := values_no_underscore.1 _ heMem
  have htC : '_' ∉ req'.transactionType.data := values_no_underscore.2.1 _ htMem
  have hcC : '_' ∉ req'.contractType.data := values_no_underscore.2.2 _ hcMem
  have hcount := congrArg (List.count '_') h2
  simp only [List.count_append, List.count_cons, List.count_eq_zero.mpr heC,
    List.count_eq_zero.mpr htC, List.count_eq_zero.mpr hcC] at hcount
  have heC0 : '_' ∉ req.entityType.data := List.count_eq_zero.mp (by omega)
  have htC0 : '_' ∉ req.transactionType.data := List.count_eq_zero.mp (by omega)
  obtain ⟨he1, he2⟩ := sep_inj heC0 heC h2
  obtain ⟨ht1, hc1⟩ := sep_inj htC0 htC he2
  rw [String.ext he1, String.ext ht1, String.ext hc1, hvalid] at hinvalid
  exact Bool.noConfusion hinvalid

/-- Every entry of a reachable cache was stored under the fingerprint of a
request that passed validation. -/
theorem handleGenerate_cache_mem {env : GenEnv} {now : Nat} {cache : ContractCache}
    {req : GenRequest} {B : PersonaType → Provider → Option String}
    {p : String × CacheEntry} (h : p ∈ (handleGenerate env now cache req B).2.1) :
    p ∈ cache ∨
      (p.1 = requestFingerprint env req ∧
       validRequestStrings req.entityType req.transactionType req.contractType = true) := by
  rw [handleGenerate] at h
  rcases hget : cacheGet cache (requestFingerprint env req) with _ | entry
  all_goals rw [hget] at h
  all_goals dsimp only at h
  · by_cases hval : validRequestStrings req.entityType req.transactionType
      req.contractType = true
    · rw [hval] at h
      simp only [Bool.not_true, Bool.false_eq_true, if_false] at h
      rcases ha : (processWithPersona env.keys (B .nanjunda)).1 with msg | analysis <;>
        rcases hc : (processWithPersona env.keys (B .achyutha)).1 with msg2 | code <;>
        rcases hs : (processWithPersona env.keys (B .sandeep)).1 with msg3 | sec <;>
        rw [ha, hc, hs] at h
      all_goals dsimp only at h
      all_goals first
        | (exact Or.inl h)
        | (by_cases hec : endpointCodeValid code = true
           · rw [if_pos hec] at h
             rcases List.mem_cons.mp h with h1 | h1
             · exact Or.inr ⟨by rw [h1], hval⟩
             · exact Or.inl h1
           · rw [if_neg hec] at h
             exact Or.inl h)
    · rw [Bool.not_eq_true] at hval
      rw [hval] at h
      simp only [Bool.not_false, if_true] at h
      exact Or.inl h
  · by_cases httl : now - entry.timestamp < CACHE_DURATION
    · rw [if_pos httl] at h
      exact Or.inl h
    · rw [if_neg httl] at h
      by_cases hval : validRequestStrings req.entityType req.transactionType
        req.contractType = true
      · rw [hval] at h
        simp only [Bool.not_true, Bool.false_eq_true, if_false] at h
        rcases ha : (processWithPersona env.keys (B .nanjunda)).1 with msg | analysis <;>
          rcases hc : (processWithPersona env.keys (B .achyutha)).1 with msg2 | code <;>
          rcases hs : (processWithPersona env.keys (B .sandeep)).1 with msg3 | sec <;>
          rw [ha, hc, hs] at h
        all_goals dsimp only at h
        all_goals first
          | (exact Or.inl h)
          | (by_cases hec : endpointCodeValid code = true
             · rw [if_pos hec] at h
               rcases List.mem_cons.mp h with h1 | h1
               · exact Or.inr ⟨by rw [h1], hval⟩
               · exact Or.inl h1
             · rw [if_neg hec] at h
               exact Or.inl h)
      · rw [Bool.not_eq_true] at hval
        rw [hval] at h
        simp only [Bool.not_false, if_true] at h
        exact Or.inl h

theorem reachable_keys_valid {env : GenEnv} {cache : ContractCache}
    (h : ReachableCache env cache) :
    ∀ p ∈ cache, ∃ req' : GenRequest,
      validRequestStrings req'.entityType req'.transactionType req'.contractType = true ∧
      p.1 = requestFingerprint env req' := by
  induction h with
  | empty => intro p hp; exact absurd hp (by simp)
  | step now req B _ ih =>
    intro p hp
    rcases handleGenerate_cache_mem hp with h1 | ⟨h1, h2⟩
    · exact ih p h1
    · exact ⟨req, h2, h1⟩

theorem pwpGo_all_none {resp : Provider → Option String} (h : ∀ p, resp p = none) :
    ∀ l, (pwpGo resp l).1 =
      .error "Failed to generate content with any available API" := by
  intro l
  induction l with
  | nil => rfl
  | cons bp rest ih =>
    rcases bp with ⟨enabled, p⟩
    cases enabled with
    | true => simp [pwpGo, h p, ih]
    | false => simp [pwpGo, ih]

/-- C9, counterexample: for a perfectly valid request, total provider failure
surfaces a user-visible error (`success = false`, status 500), so the
invalid-request rejection is not the only failure path visible to the
caller. -/
theorem C9_counterexample :
    validRequestStrings reqCustomA.entityType reqCustomA.transactionType
      reqCustomA.contractType = true ∧
    (handleGenerate sampleEnv 7 [] reqCustomA allFailB).1.success = false ∧
    (handleGenerate sampleEnv 7 [] reqCustomA allFailB).1.status = 500 := by
  exact ⟨by decide, by rfl, by rfl⟩

/-- C9, amended: (1) on every reachable cache state, a request with any
category field outside the allowed value sets is rejected immediately with
`success = false` and HTTP 400, the cache untouched and zero provider calls
made; (2) but this is not the only user-visible failure path: a valid
request that misses the cache and exhausts all providers is answered
`success = false` with HTTP 500. -/
theorem C9_amended_thm :
    (∀ (env : GenEnv) (now : Nat) (cache : ContractCache) (req : GenRequest)
        (B : PersonaType → Provider → Option String),
      ReachableCache env cache →
      validRequestStrings req.entityType req.transactionType req.contractType = false →
      handleGenerate env now cache req B =
        (⟨false, 400, none,
          some "Invalid entity type, transaction type, or contract type", none⟩,
         cache, ⟨[], 0⟩)) ∧
    (∀ (env : GenEnv) (now : Nat) (cache : ContractCache) (req : GenRequest)
        (B : PersonaType → Provider → Option String),
      cacheGet cache (requestFingerprint env req) = none →
      validRequestStrings req.entityType req.transactionType req.contractType = true →
      (∀ t p, B t p = none) →
      (handleGenerate env now cache req B).1 =
        ⟨false, 500, none,
         some "Failed to generate content with any available API", none⟩ ∧
      (handleGenerate env now cache req B).2.1 = cache) := by
  constructor
  · intro env now cache req B hreach hinvalid
    have hnone : cacheGet cache (requestFingerprint env req) = none := by
      apply lookup_eq_none_of_forall
      intro p hp
      obtain ⟨req', hv', hkey⟩ := reachable_keys_valid hreach p hp
      rw [hkey]
      exact (invalid_fingerprint_ne hinvalid hv').symm
    simp [handleGenerate, hnone, hinvalid]
  · intro env now cache req B hmiss hvalid hB
    have hfail : ∀ t : PersonaType, (processWithPersona env.keys (B t)).1 =
        .error "Failed to generate content with any available API" := by
      intro t
      exact pwpGo_all_none (hB t) _
    have h500 : errorStatusCode "Failed to generate content with any available API"
        = 500 := by rfl
    constructor
    · simp [handleGenerate, hmiss, hvalid, hfail, h500]
    · simp [handleGenerate, hmiss, hvalid, hfail]

/-- The one-store state `c2State` is reachable. -/
theorem c2State_reachable : ReachableCache sampleEnv c2State :=
  ReachableCache.step 0 reqCustomA allOkB ReachableCache.empty

/-- C9, witness for the amended theorem: a concrete invalid request on a
concretely reachable state, and a concrete valid request with every provider
failing. -/
theorem C9_amended_witness :
    handleGenerate sampleEnv 3 c2State ⟨"SOLE PROPRIETOR", "B2B", "Supply Chain", none⟩
        allFailB =
      (⟨false, 400, none,
        some "Invalid entity type, transaction type, or contract type", none⟩,
       c2State, ⟨[], 0⟩) ∧
    (handleGenerate sampleEnv 3 [] reqCustomA allFailB).1 =
      ⟨false, 500, none,
       some "Failed to generate content with any available API", none⟩ := by
  constructor
  · exact C9_amended_thm.1 sampleEnv 3 c2State _ allFailB
      c2State_reachable (by decide)
  · exact (C9_amended_thm.2 sampleEnv 3 [] reqCustomA allFailB rfl (by decide)
      (fun _ _ => rfl)).1

/-! ### C1: total provider failure -/

/-- A second valid request fixture. -/
def reqStaking : GenRequest := ⟨"PARTNERSHIP", "P2P", "Staking Contract", none⟩

/-- C1, counterexample: when every provider attempt fails for every persona
task, the `/api/generate` endpoint of `src/unnamed/part_011` does not return
a success result with the fallback artifact — the `processWithPersona`
rejection reaches the catch block and the caller receives
`success = false` with HTTP 500 and no artifact at all. -/
theorem C1_counterexample :
    validRequestStrings reqStaking.entityType reqStaking.transactionType
      reqStaking.contractType = true ∧
    (handleGenerate sampleEnv 11 [] reqStaking allFailB).1 =
      ⟨false, 500, none,
       some "Failed to generate content with any available API", none⟩ := by
  exact ⟨by decide, by rfl⟩

/-- C1, amended: the success-with-fallback behavior holds for the
`generateCustomContract` operation of aiService.ts — under total provider
failure it returns normally, with the artifact equal to the deterministic
`getFallbackContract` template for that exact request — whereas the
`/api/generate` endpoint of `src/unnamed/part_011`, which drives its own
`processWithPersona`, instead surfaces `success = false` with HTTP 500 when
all providers fail for a persona task of a valid, uncached request. -/
theorem C1_amended_thm :
    (∀ (extract : String → String) (e t c : String) (cs : Option Customizations)
        (resp : Provider → Option String),
      (∀ p, resp p = none) →
      generateCustomContract extract e t c cs resp =
        ⟨"Nanjunda has analyzed your requirements for a " ++ c ++ " contract for " ++
           e ++ " with " ++ t ++
           " transactions. Due to generation issues with our AI providers, we are providing a template contract that meets your requirements.",
         getFallbackContract e t c cs,
         ⟨["Template provided due to generation issues with AI providers."],
          ["Review the template contract thoroughly before deployment",
           "Consider a security audit by a professional before using in production",
           "Implement additional security checks specific to your use case"]⟩⟩) ∧
    (∀ (env : GenEnv) (now : Nat) (cache : ContractCache) (req : GenRequest)
        (B : PersonaType → Provider → Option String),
      cacheGet cache (requestFingerprint env req) = none →
      validRequestStrings req.entityType req.transactionType req.contractType = true →
      (∀ t p, B t p = none) →
      (handleGenerate env now cache req B).1.success = false ∧
      (handleGenerate env now cache req B).1.status = 500 ∧
      (handleGenerate env now cache req B).1.data = none) := by
  constructor
  · intro extract e t c cs resp hresp
    simp [generateCustomContract, hresp]
  · intro env now cache req B hmiss hvalid hB
    have hfail : ∀ t : PersonaType, (processWithPersona env.keys (B t)).1 =
        .error "Failed to generate content with any available API" :=
      fun t => pwpGo_all_none (hB t) _
    have h500 : errorStatusCode "Failed to generate content with any available API"
        = 500 := by rfl
    refine ⟨?_, ?_, ?_⟩ <;> simp [handleGenerate, hmiss, hvalid, hfail, h500]

/-- C1, witness for the amended theorem: the concrete all-failure run of the
aiService chain returns the fallback template, and the concrete endpoint run
returns the 500 failure. -/
theorem C1_amended_witness :
    generateCustomContract id "LLP" "B2B" "Equity Tokenization" none (fun _ => none) =
      ⟨"Nanjunda has analyzed your requirements for a " ++ "Equity Tokenization" ++
         " contract for " ++ "LLP" ++ " with " ++ "B2B" ++
         " transactions. Due to generation issues with our AI providers, we are providing a template contract that meets your requirements.",
       getFallbackContract "LLP" "B2B" "Equity Tokenization" none,
       ⟨["Template provided due to generation issues with AI providers."],
        ["Review the template contract thoroughly before deployment",
         "Consider a security audit by a professional before using in production",
         "Implement additional security checks specific to your use case"]⟩⟩ ∧
    (handleGenerate sampleEnv 11 [] reqCustomA allFailB).1.success = false :=
  ⟨C1_amended_thm.1 id "LLP" "B2B" "Equity Tokenization" none (fun _ => none)
     (fun _ => rfl),
   (C1_amended_thm.2 sampleEnv 11 [] reqCustomA allFailB rfl (by decide)
     (fun _ _ => rfl)).1⟩

/-! ### C5: cache hit avoids provider calls -/

theorem cacheGet_cacheSet_same (cache : ContractCache) (k : String) (e : CacheEntry) :
    cacheGet (cacheSet cache k e) k = some e := by
  simp [cacheGet, cacheSet, List.lookup]

/-- A successful, non-cached response comes from the store branch: the data
is provider-generated content and the new cache state is the old one with
the entry stored under the request fingerprint, timestamped `now`. -/
theorem handleGenerate_success_fresh {env : GenEnv} {now : Nat}
    {cache : ContractCache} {req : GenRequest}
    {B : PersonaType → Provider → Option String}
    (h1 : (handleGenerate env now cache req B).1.success = true)
    (h2 : (handleGenerate env now cache req B).1.fromCache = none) :
    ∃ analysis code sec,
      (handleGenerate env now cache req B).1 =
        ⟨true, 200, some ⟨analysis, code, sec, env.gas code⟩, none, none⟩ ∧
      (handleGenerate env now cache req B).2.1 =
        cacheSet cache (requestFingerprint env req)
          { code := code, timestamp := now, analysis := analysis, security := sec,
            gasAnalysis := env.gas code,
            fragments := ⟨env.tmpl req.contractType req.entityType
              req.transactionType req.customizations, [], req.customizations.getD []⟩,
            metadata := ⟨env.solidityVersion.getD "0.8.20", "OpenZeppelin 5.0.0",
              [("@openzeppelin/contracts-upgradeable", "^5.0.0"),
               ("@openzeppelin/contracts", "^5.0.0")]⟩,
            validation := ⟨now, .valid, []⟩ } := by
  rw [handleGenerate] at h1 h2
  rcases hget : cacheGet cache (requestFingerprint env req) with _ | entry
  all_goals rw [hget] at h1 h2
  all_goals dsimp only at h1 h2
  case some =>
    by_cases httl : now - entry.timestamp < CACHE_DURATION
    · rw [if_pos httl] at h2
      exact Option.noConfusion h2
    · rw [if_neg httl] at h1 h2
      dsimp only at h1 h2
      by_cases hval : validRequestStrings req.entityType req.transactionType
        req.contractType = true
      · rw [hval] at h1 h2
        simp only [Bool.not_true, Bool.false_eq_true, if_false] at h1 h2
        rcases ha : (processWithPersona env.keys (B .nanjunda)).1 with msg | analysis <;>
          rcases hc : (processWithPersona env.keys (B .achyutha)).1 with msg2 | code <;>
          rcases hs : (processWithPersona env.keys (B .sandeep)).1 with msg3 | secTxt <;>
          rw [ha, hc, hs] at h1 h2 <;>
          dsimp only at h1 h2
        all_goals try exact Bool.noConfusion h1
        by_cases hec : endpointCodeValid code = true
        · refine ⟨analysis, code,
            ⟨extractVulnerabilities secTxt, extractRecommendations secTxt⟩, ?_, ?_⟩
          · simp [handleGenerate, hget, httl, hval, ha, hc, hs, hec]
          · simp [handleGenerate, hget, httl, hval, ha, hc, hs, hec]
        · rw [if_neg hec] at h1
          exact Bool.noConfusion h1
      · rw [Bool.not_eq_true] at hval
        rw [hval] at h1
        simp only [Bool.not_false, if_true] at h1
        exact Bool.noConfusion h1
  case none =>
    by_cases hval : validRequestStrings req.entityType req.transactionType
      req.contractType = true
    · rw [hval] at h1 h2
      simp only [Bool.not_true, Bool.false_eq_true, if_false] at h1 h2
      rcases ha : (processWithPersona env.keys (B .nanjunda)).1 with msg | analysis <;>
        rcases hc : (processWithPersona env.keys (B .achyutha)).1 with msg2 | code <;>
        rcases hs : (processWithPersona env.keys (B .sandeep)).1 with msg3 | secTxt <;>
        rw [ha, hc, hs] at h1 h2 <;>
        dsimp only at h1 h2
      all_goals try exact Bool.noConfusion h1
      by_cases hec : endpointCodeValid code = true
      · refine ⟨analysis, code,
          ⟨extractVulnerabilities secTxt, extractRecommendations secTxt⟩, ?_, ?_⟩
        · simp [handleGenerate, hget, hval, ha, hc, hs, hec]
        · simp [handleGenerate, hget, hval, ha, hc, hs, hec]
      · rw [if_neg hec] at h1
        exact Bool.noConfusion h1
    · rw [Bool.not_eq_true] at hval
      rw [hval] at h1
      simp only [Bool.not_false, if_true] at h1
      exact Bool.noConfusion h1

/-- C5: a valid request whose first handling succeeded (a fresh,
provider-generated response) is, when reissued within the cache TTL, served
from the cache: the second response carries `fromCache = true` and the same
data, the second handling performs zero provider calls, submits no prompts,
and leaves the cache untouched — whatever the providers would have answered
the second time. -/
theorem C5_thm (env : GenEnv) (now₁ now₂ : Nat) (cache : ContractCache)
    (req : GenRequest) (B₁ B₂ : PersonaType → Provider → Option String)
    (h1 : (handleGenerate env now₁ cache req B₁).1.success = true)
    (h2 : (handleGenerate env now₁ cache req B₁).1.fromCache = none)
    (httl : now₂ - now₁ < CACHE_DURATION) :
    (handleGenerate env now₂ (handleGenerate env now₁ cache req B₁).2.1 req B₂).1.fromCache
        = some true ∧
    (handleGenerate env now₂ (handleGenerate env now₁ cache req B₁).2.1 req B₂).1.success
        = true ∧
    (handleGenerate env now₂ (handleGenerate env now₁ cache req B₁).2.1 req B₂).1.data
        = (handleGenerate env now₁ cache req B₁).1.data ∧
    (handleGenerate env now₂ (handleGenerate env now₁ cache req B₁).2.1 req B₂).2.2.providerCalls
        = 0 ∧
    (handleGenerate env now₂ (handleGenerate env now₁ cache req B₁).2.1 req B₂).2.2.prompts
        = [] ∧
    (handleGenerate env now₂ (handleGenerate env now₁ cache req B₁).2.1 req B₂).2.1
        = (handleGenerate env now₁ cache req B₁).2.1 := by
  obtain ⟨analysis, code, sec, hresp, hstate⟩ := handleGenerate_success_fresh h1 h2
  rw [hstate, hresp]
  refine ⟨?_, ?_, ?_, ?_, ?_, ?_⟩ <;>
    simp [handleGenerate, cacheGet_cacheSet_same, httl]

/-- C5, witness: the concrete two-run scenario from the fixtures — first run
generates and stores, second run within TTL is a cache hit with zero
provider calls. -/
theorem C5_witness :
    (handleGenerate sampleEnv 9 (handleGenerate sampleEnv 0 [] reqCustomA allOkB).2.1
        reqCustomA allFailB).1.fromCache = some true ∧
    (handleGenerate sampleEnv 9 (handleGenerate sampleEnv 0 [] reqCustomA allOkB).2.1
        reqCustomA allFailB).2.2.providerCalls = 0 := by
  have h := C5_thm sampleEnv 0 9 [] reqCustomA allOkB allFailB (by rfl) (by rfl)
    (by decide)
  exact ⟨h.1, h.2.2.2.1⟩

/-! ### C6: persona-task data independence -/

/-- The three prompts the `/api/generate` endpoint submits for a request —
a function of the environment (via `getContractTemplate`) and the request
fields only. -/
def submittedPrompts (env : GenEnv) (req : GenRequest) : List (PersonaType × String) :=
  [(.nanjunda, analysisPrompt req.contractType req.entityType req.transactionType),
   (.achyutha, codePrompt req.contractType req.entityType req.transactionType
     (env.tmpl req.contractType req.entityType req.transactionType req.customizations)),
   (.sandeep, securityPrompt req.contractType req.entityType req.transactionType)]

theorem handleGenerate_prompts (env : GenEnv) (now : Nat) (cache : ContractCache)
    (req : GenRequest) (B : PersonaType → Provider → Option String) :
    (handleGenerate env now cache req B).2.2.prompts =
      (match cacheGet cache (requestFingerprint env req) with
      | some cached =>
        if now - cached.timestamp < CACHE_DURATION then []
        else if validRequestStrings req.entityType req.transactionType req.contractType
          then submittedPrompts env req else []
      | none =>
        if validRequestStrings req.entityType req.transactionType req.contractType
          then submittedPrompts env req else []) := by
  rw [handleGenerate]
  dsimp only
  rcases hget : cacheGet cache (requestFingerprint env req) with _ | entry
  all_goals dsimp only
  · by_cases hval : validRequestStrings req.entityType req.transactionType
      req.contractType = true
    · rw [hval]
      simp only [Bool.not_true, Bool.false_eq_true, if_false, if_true]
      rcases ha : (processWithPersona env.keys (B .nanjunda)).1 with msg | analysis <;>
        rcases hc : (processWithPersona env.keys (B .achyutha)).1 with msg2 | code <;>
        rcases hs : (processWithPersona env.keys (B .sandeep)).1 with msg3 | secTxt <;>
        dsimp only
      all_goals try rfl
      by_cases hec : endpointCodeValid code = true
      · rw [if_pos hec]
        rfl
      · rw [if_neg hec]
        rfl
    · rw [Bool.not_eq_true] at hval
      rw [hval]
      simp only [Bool.not_false, if_true, Bool.false_eq_true, if_false]
  · by_cases httl : now - entry.timestamp < CACHE_DURATION
    · simp only [if_pos httl]
    · rw [if_neg httl, if_neg httl]
      dsimp only
      by_cases hval : validRequestStrings req.entityType req.transactionType
        req.contractType = true
      · rw [hval]
        simp only [Bool.not_true, Bool.false_eq_true, if_false, if_true]
        rcases ha : (processWithPersona env.keys (B .nanjunda)).1 with msg | analysis <;>
          rcases hc : (processWithPersona env.keys (B .achyutha)).1 with msg2 | code <;>
          rcases hs : (processWithPersona env.keys (B .sandeep)).1 with msg3 | secTxt <;>
          dsimp only
        all_goals try rfl
        by_cases hec : endpointCodeValid code = true
        · rw [if_pos hec]
          rfl
        · rw [if_neg hec]
          rfl
      · rw [Bool.not_eq_true] at hval
        rw [hval]
        simp only [Bool.not_false, if_true, Bool.false_eq_true, if_false]

/-- Behaviors for the sequential variant that differ only in the first
(analysis) response. -/
def seqB1 : Nat → String := fun n => if n = 0 then "ANALYSIS-ONE" else "SAME"

/-- Second such behavior. -/
def seqB2 : Nat → String := fun n => if n = 0 then "ANALYSIS-TWO" else "SAME"

/-- C6, counterexample: in the sequential `/api/generate` variant of
`src/backend/src/server.ts`, two provider behaviors that differ only in the
analysis response produce different submitted synthesis prompts — the
synthesis prompt incorporates the analysis result, refuting data
independence for this pipeline. -/
theorem C6_counterexample :
    (∀ n, n ≠ 0 → seqB1 n = seqB2 n) ∧
    (serverHandleGenerate "LLP" "B2B" "Equity Tokenization" "null" seqB1).1.get? 1 ≠
      (serverHandleGenerate "LLP" "B2B" "Equity Tokenization" "null" seqB2).1.get? 1 := by
  constructor
  · intro n hn
    simp [seqB1, seqB2, hn]
  · decide

/-- C6, amended: in the `src/unnamed/part_011` endpoint the three persona
tasks are data-independent — the submitted prompt list is invariant under
the provider behavior, and on the generating path it equals
`submittedPrompts`, a function of the request and grounding template alone —
whereas the sequential `src/backend/src/server.ts` variant submits the
analysis output as the synthesis prompt and the synthesis output as the
risk-review prompt. -/
theorem C6_amended_thm :
    (∀ (env : GenEnv) (now : Nat) (cache : ContractCache) (req : GenRequest)
        (B B' : PersonaType → Provider → Option String),
      (handleGenerate env now cache req B).2.2.prompts =
      (handleGenerate env now cache req B').2.2.prompts) ∧
    (∀ (env : GenEnv) (now : Nat) (cache : ContractCache) (req : GenRequest)
        (B : PersonaType → Provider → Option String),
      cacheGet cache (requestFingerprint env req) = none →
      validRequestStrings req.entityType req.transactionType req.contractType = true →
      (handleGenerate env now cache req B).2.2.prompts = submittedPrompts env req) ∧
    (∀ (e t c cjson : String) (B : Nat → String),
      (serverHandleGenerate e t c cjson B).1 =
        [(.nanjunda, serverPersonaPrefix .nanjunda ++ serverBasePrompt e t c cjson),
         (.achyutha, serverPersonaPrefix .achyutha ++ B 0),
         (.sandeep, serverPersonaPrefix .sandeep ++ B 1)]) := by
  refine ⟨?_, ?_, ?_⟩
  · intro env now cache req B B'
    rw [handleGenerate_prompts, handleGenerate_prompts]
  · intro env now cache req B hmiss hval
    rw [handleGenerate_prompts, hmiss, hval]
    simp
  · intro e t c cjson B
    rfl

/-- C6, witness for the amended theorem: the concrete generating run of the
endpoint submits exactly the three request-derived prompts. -/
theorem C6_amended_witness :
    (handleGenerate sampleEnv 0 [] reqCustomA allOkB).2.2.prompts =
      submittedPrompts sampleEnv reqCustomA :=
  C6_amended_thm.2.1 sampleEnv 0 [] reqCustomA allOkB rfl (by decide)

/-! ### C4: content validation -/

/-- A 594-character contract text containing a bare "TODO" marker (not of
the checked "// TODO" form). -/
def todoCode : String :=
  "// SPDX-License-Identifier: MIT\npragma solidity ^0.8.20;\ncontract Sample \x7b\n    constructor() \x7b \x7d\n    /* TODO: tighten access control before deployment */\n    // padding line 00 to reach the validator minimum length\n    // padding line 01 to reach the validator minimum length\n    // padding line 02 to reach the validator minimum length\n    // padding line 03 to reach the validator minimum length\n    // padding line 04 to reach the validator minimum length\n    // padding line 05 to reach the validator minimum length\n    // padding line 06 to reach the validator minimum length\n    // padding line 07 to reach the validator minimum length\n\x7d"

/-- A 547-character contract text with no SPDX license identifier. -/
def noSpdxCode : String :=
  "pragma solidity ^0.8.20;\ncontract Sample \x7b\n    constructor() \x7b \x7d\n    // padding line 00 to reach the validator minimum length\n    // padding line 01 to reach the validator minimum length\n    // padding line 02 to reach the validator minimum length\n    // padding line 03 to reach the validator minimum length\n    // padding line 04 to reach the validator minimum length\n    // padding line 05 to reach the validator minimum length\n    // padding line 06 to reach the validator minimum length\n    // padding line 07 to reach the validator minimum length\n\x7d"

/-- C4, counterexample: content containing a "TODO" placeholder marker is
accepted by `validateContractCode` (which only checks the exact text
"// TODO") and is returned as the final artifact by the generation endpoint
even when it is the only provider response received. -/
theorem C4_counterexample :
    jsIncludes todoCode "TODO" = true ∧
    validateContractCode todoCode = true ∧
    (handleGenerate sampleEnv 13 [] reqStaking
        (fun _ p => if p = .together then some todoCode else none)).1.success = true ∧
    ((handleGenerate sampleEnv 13 [] reqStaking
        (fun _ p => if p = .together then some todoCode else none)).1.data.map
      ResponseData.code) = some todoCode := by
  exact ⟨by rfl, by rfl, by rfl, by rfl⟩

/-- C4, amended: `validateContractCode` accepts exactly the texts with a
pragma, a contract declaration and a callable unit (constructor or
function), longer than 500 characters, free of "..." and of the four
literal placeholder comments "// TODO", "// Implementation",
"rest of the code" and "// Add implementation" — it does not require a
license header (the computed SPDX flag is unused) and does not reject a bare
"TODO". The endpoint's own check requires the SPDX header, the pragma, and
"contract", and rejects exactly "...", "rest of" and "remains the same",
with no length or TODO check. Ellipsis-bearing content is rejected by both
validators. -/
theorem C4_amended_thm :
    (∀ code : String, validateContractCode code = true ↔
      (jsIncludes code "pragma solidity" = true ∧
       jsIncludes code "contract " = true ∧
       (jsIncludes code "constructor" = true ∨ jsIncludes code "function " = true) ∧
       jsIncludes code "..." = false ∧
       jsIncludes code "// TODO" = false ∧
       jsIncludes code "// Implementation" = false ∧
       jsIncludes code "rest of the code" = false ∧
       jsIncludes code "// Add implementation" = false ∧
       500 < code.length)) ∧
    (∀ code : String, endpointCodeValid code = true ↔
      (jsIncludes code "SPDX-License-Identifier" = true ∧
       jsIncludes code "pragma solidity" = true ∧
       jsIncludes code "contract" = true ∧
       jsIncludes code "..." = false ∧
       jsIncludes code "rest of" = false ∧
       jsIncludes code "remains the same" = false)) ∧
    (validateContractCode noSpdxCode = true ∧ hasSPDXLicense noSpdxCode = false) ∧
    (∀ code : String, jsIncludes code "..." = true →
      validateContractCode code = false ∧ endpointCodeValid code = false) := by
  refine ⟨?_, ?_, ⟨by rfl, by rfl⟩, ?_⟩
  · intro code
    rw [validateContractCode]
    simp only [Bool.and_eq_true, Bool.or_eq_true, Bool.not_eq_true',
      decide_eq_true_eq, Bool.or_eq_false_iff]
    tauto
  · intro code
    rw [endpointCodeValid]
    simp only [Bool.and_eq_true, Bool.not_eq_true']
    tauto
  · intro code h
    constructor
    · rw [validateContractCode]
      simp [h]
    · rw [endpointCodeValid]
      simp [h]

/-- C4, witness for the amended theorem: both validators reject a concrete
ellipsis-bearing text, via the amended theorem's final conjunct. -/
theorem C4_amended_witness :
    validateContractCode "contract X // ... rest to be filled in" = false ∧
    endpointCodeValid "contract X // ... rest to be filled in" = false :=
  C4_amended_thm.2.2.2 "contract X // ... rest to be filled in" (by rfl)

/-! ### C10: the fallback artifact against the content validator -/

theorem jsIncludes_eq_false {s pat : String} (h : ¬ pat.data <:+: s.data) :
    jsIncludes s pat = false := by
  cases hc : containsL pat.data s.data with
  | false => rw [jsIncludes]; exact hc
  | true => exact absurd (containsL_iff.mp hc) h

theorem jsIncludes_append_left {a : String} (b : String) {pat : String}
    (h : jsIncludes a pat = true) : jsIncludes (a ++ b) pat = true := by
  rw [jsIncludes] at h ⊢
  rw [strData_append]
  exact containsL_iff.mpr (infix_append_of_left _ (containsL_iff.mp h))

theorem jsIncludes_append_right (a : String) {b pat : String}
    (h : jsIncludes b pat = true) : jsIncludes (a ++ b) pat = true := by
  rw [jsIncludes] at h ⊢
  rw [strData_append]
  exact containsL_iff.mpr (infix_append_of_right _ (containsL_iff.mp h))

theorem nl_decomp {s : String} (h : nlHead s = true) :
    s.data = ['\n'] ++ s.data.tail := by
  rcases hd : s.data with _ | ⟨a, t⟩
  · rw [nlHead, hd] at h
    simp at h
  · rw [nlHead, hd] at h
    have ha : a = '\n' := by simpa using h
    rw [ha]
    rfl

theorem nlhead_append_decomp {s : String} (X : List Char) (h : nlHead s = true) :
    s.data ++ X = ['\n'] ++ (s.data.tail ++ X) := by
  conv_lhs => rw [nl_decomp h]
  rw [List.append_assoc]

theorem head_append_decomp (c : String) (cs : List String) (X : List Char) :
    (catChunks (c :: cs)).data ++ X = c.data ++ ((catChunks cs).data ++ X) := by
  rw [catChunks_head_decomp, List.append_assoc]

/-- Occurrences of a line-break-free pattern cannot cross into a
line-break-headed segment followed by more text. -/
theorem noInfix_append_nlSeg {p x : List Char} {s : String} {Y : List Char}
    (hnl : '\n' ∉ p) (hx : ¬ p <:+: x) (hsY : ¬ p <:+: s.data ++ Y)
    (hhead : nlHead s = true) : ¬ p <:+: x ++ (s.data ++ Y) :=
  noInfix_append_r (nlhead_append_decomp Y hhead) hx hsY (noSpanR_nl hnl)

/-- Occurrences of a line-break-free pattern cannot cross into a trailing
line-break-headed segment. -/
theorem noInfix_append_nlSeg' {p x : List Char} {s : String}
    (hnl : '\n' ∉ p) (hx : ¬ p <:+: x) (hs : ¬ p <:+: s.data)
    (hhead : nlHead s = true) : ¬ p <:+: x ++ s.data :=
  noInfix_append_r (nl_decomp hhead) hx hs (noSpanR_nl hnl)

/-- Side conditions shared by all template branches: the pattern has no line
break, is nonempty, and occurs in no enum value string (raw or
whitespace-stripped). -/
def commonSideB (p : List Char) : Bool :=
  (p.all fun ch => !(ch == '\n')) && (!p.isEmpty &&
  ((entityTypeValues.all fun s => containsL p s.data == false) &&
  ((transactionTypeValues.all fun s => containsL p s.data == false) &&
  ((contractTypeValues.all fun s => containsL p s.data == false) &&
  ((contractTypeValues.map stripSpaces).all fun s => containsL p s.data == false)))))

theorem markers_commonSide :
    markerPatterns.all (fun m => commonSideB m.data) = true := by decide

/-- Side conditions of the equity-template branch. -/
def eqSideB (p : List Char) : Bool :=
  chunksOk p eqSeg1Chunks && (chunksOk p eqSeg2Chunks && (chunksOk p eqSeg3Chunks &&
  (noSpanL p "\n * @title Equity Token for ".data &&
  (noSpanL p "\ncontract ".data &&
  (noSpanR p " is ERC20, Ownable, Pausable \x7b".data &&
  (containsL p "EquityToken".data == false))))))

theorem markers_eqSide :
    markerPatterns.all (fun m => eqSideB m.data) = true := by decide

/-- Side conditions of the supply-chain-template branch. -/
def supSideB (p : List Char) : Bool :=
  chunksOk p supSeg1Chunks && (chunksOk p supSeg2Chunks &&
  noSpanL p "\n * @title Supply Chain Management Contract for ".data)

theorem markers_supSide :
    markerPatterns.all (fun m => supSideB m.data) = true := by decide

/-- Side conditions of the profit-sharing-template branch. -/
def proSideB (p : List Char) : Bool :=
  chunksOk p proSeg1Chunks && (chunksOk p proSeg2Chunks &&
  noSpanL p "\n * @title Profit Sharing Contract for ".data)

theorem markers_proSide :
    markerPatterns.all (fun m => proSideB m.data) = true := by decide

/-- Side conditions of the revenue-sharing-template branch. -/
def revSideB (p : List Char) : Bool :=
  chunksOk p revSeg1Chunks && (chunksOk p revSeg2Chunks &&
  noSpanL p "\n * @title Revenue Sharing Contract for ".data)

theorem markers_revSide :
    markerPatterns.all (fun m => revSideB m.data) = true := by decide

/-- Side conditions of the generic-template branch. -/
def genSideB (p : List Char) : Bool :=
  chunksOk p genSeg1Chunks && (chunksOk p genSeg2Chunks && (chunksOk p genSeg3Chunks &&
  (chunksOk p genSeg4Chunks && (chunksOk p genSeg5Chunks && (chunksOk p genSeg6Chunks &&
  (chunksOk p genSeg7Chunks &&
  (noSpanL p "\n * @title ".data &&
  (noSpanR p " for ".data &&
  (noSpanL p " for ".data &&
  (noSpanL p "\n * @dev Standard contract for ".data &&
  (noSpanR p " transactions".data &&
  (noSpanL p "\ncontract ".data &&
  (noSpanR p " is Ownable \x7b".data &&
  (noSpanL p "\n    ".data &&
  (noSpanL p "\n        name = \"".data &&
  noSpanR p "\";".data)))))))))))))))

theorem markers_genSide :
    markerPatterns.all (fun m => genSideB m.data) = true := by decide

/-- Side conditions for the rendered custom-parameters block of the generic
template. -/
def entrySideB (p : List Char) : Bool :=
  (containsL p "string public ".data == false) && (noSpanL p "string public ".data &&
  ((containsL p "uint256 public ".data == false) && (noSpanL p "uint256 public ".data &&
  ((containsL p " = \"".data == false) && (noSpanR p " = \"".data &&
  (noSpanL p " = \"".data &&
  ((containsL p "\";".data == false) && (noSpanR p "\";".data &&
  ((containsL p " = ".data == false) && (noSpanR p " = ".data &&
  (noSpanL p " = ".data &&
  ((containsL p ";".data == false) && (noSpanR p ";".data &&
  ((containsL p "\n    ".data == false) &&
  ((containsL p "    ".data == false) && (noSpanL p "    ".data &&
  (containsL p "// No custom parameters specified".data == false)))))))))))))))))

theorem markers_entrySide :
    markerPatterns.all (fun m => entrySideB m.data) = true := by decide

theorem entity_str_mem (e : EntityType) : e.str ∈ entityTypeValues := by
  cases e <;> decide

theorem transaction_str_mem (t : TransactionType) : t.str ∈ transactionTypeValues := by
  cases t <;> decide

theorem contract_str_mem (c : ContractType) : c.str ∈ contractTypeValues := by
  cases c <;> decide

theorem lookup_mem : ∀ {cs : List (String × CustomValue)} {k : String} {v : CustomValue},
    cs.lookup k = some v → (k, v) ∈ cs
  | [], _, _, h => by simp [List.lookup] at h
  | (a, b) :: t, k, v, h => by
    rw [List.lookup] at h
    rcases hk : k == a with _ | _
    · rw [hk] at h
      exact List.mem_cons_of_mem _ (lookup_mem h)
    · rw [hk] at h
      simp only [Option.some.injEq] at h
      have hka : k = a := by simpa using hk
      rw [hka, ← h]
      exact List.mem_cons_self _ _

/-- A marker-free key/value pair renders to a marker-free custom-parameter
line: occurrences cannot hide inside the concrete contexts
(`string public `/`uint256 public `, ` = `, the quotes, `;`) and cannot span
their borders. -/
theorem entry_noInfix {p : List Char} (hside : entrySideB p = true)
    (kv : String × CustomValue)
    (hk : ¬ p <:+: kv.1.data) (hv : ¬ p <:+: (renderCV kv.2).data) :
    ¬ p <:+: (renderCustomEntry kv).data := by
  simp only [entrySideB, Bool.and_eq_true, beq_iff_eq] at hside
  obtain ⟨hA, hAL, hA2, hA2L, hB, hBR, hBL, hC, hCR, hD, hDR, hDL, hE, hER,
    hNL4, h4, h4L, hNoCust⟩ := hside
  obtain ⟨k, v⟩ := kv
  cases v with
  | str s =>
    simp only [renderCV] at hv
    simp only [renderCustomEntry, strData_append]
    exact noInfix_append_l (List.nil_append _).symm (not_infix_of_containsL_eq_false hA)
      (noInfix_append_r rfl hk
        (noInfix_append_l (List.nil_append _).symm (not_infix_of_containsL_eq_false hB)
          (noInfix_append_r (List.append_nil _).symm hv
            (not_infix_of_containsL_eq_false hC) hCR)
          hBL)
        hBR)
      hAL
  | num n =>
    simp only [renderCV] at hv
    simp only [renderCustomEntry, strData_append]
    exact noInfix_append_l (List.nil_append _).symm (not_infix_of_containsL_eq_false hA2)
      (noInfix_append_r rfl hk
        (noInfix_append_l (List.nil_append _).symm (not_infix_of_containsL_eq_false hD)
          (noInfix_append_r (List.append_nil _).symm hv
            (not_infix_of_containsL_eq_false hE) hER)
          hDL)
        hDR)
      hA2L

/-- A line-break-free pattern absent from two texts is absent from their
join by the `\n    ` separator of the custom-parameters block. -/
theorem noInfix_sepIndent {p x J : List Char} (hnl : '\n' ∉ p)
    (hNL4 : containsL p "\n    ".data = false)
    (h4 : containsL p "    ".data = false)
    (h4L : noSpanL p "    ".data = true)
    (hx : ¬ p <:+: x) (hJ : ¬ p <:+: J) :
    ¬ p <:+: x ++ (("\n    " : String).data ++ J) := by
  have hb : ("\n    " : String).data ++ J = ['\n'] ++ (("    " : String).data ++ J) := rfl
  have hae : ("\n    " : String).data = ['\n'] ++ ("    " : String).data := rfl
  have hbn : ¬ p <:+: ("\n    " : String).data ++ J :=
    noInfix_append_l hae (not_infix_of_containsL_eq_false hNL4) hJ h4L
  exact noInfix_append_r hb hx hbn (noSpanR_nl hnl)

theorem joinSep_noInfix {p : List Char} (hnl : '\n' ∉ p) (hne : p ≠ [])
    (hNL4 : containsL p "\n    ".data = false)
    (h4 : containsL p "    ".data = false)
    (h4L : noSpanL p "    ".data = true) :
    ∀ (l : List String), (∀ s ∈ l, ¬ p <:+: s.data) →
      ¬ p <:+: (joinSep "\n    " l).data
  | [] => fun _ => by
    intro hin
    rw [show (joinSep "\n    " ([] : List String)).data = ([] : List Char) from rfl] at hin
    exact hne (List.infix_nil.mp hin)
  | [x] => fun h => by
    have hx := h x (List.mem_singleton.mpr rfl)
    simpa [joinSep] using hx
  | x :: y :: xs => fun h => by
    have ihyp := joinSep_noInfix hnl hne hNL4 h4 h4L (y :: xs)
      (fun s hs => h s (List.mem_cons_of_mem _ hs))
    have hx := h x (List.mem_cons_self _ _)
    show ¬ p <:+: (x ++ ("\n    " ++ joinSep "\n    " (y :: xs))).data
    simp only [strData_append]
    exact noInfix_sepIndent hnl hNL4 h4 h4L hx ihyp

/-- The rendered custom-parameters block of the generic fallback template is
free of a marker that is absent from every key and rendered value. -/
theorem renderCustomBlock_noInfix {p : List Char} (hnl : '\n' ∉ p) (hne : p ≠ [])
    (hside : entrySideB p = true) (cz : Option Customizations)
    (hcz : ∀ kv ∈ cz.getD [], ¬ p <:+: kv.1.data ∧ ¬ p <:+: (renderCV kv.2).data) :
    ¬ p <:+: (renderCustomBlock cz).data := by
  have hside' := hside
  simp only [entrySideB, Bool.and_eq_true, beq_iff_eq] at hside'
  obtain ⟨_, _, _, _, _, _, _, _, _, _, _, _, _, _, hNL4, h4, h4L, hNoCust⟩ := hside'
  rcases cz with _ | cs
  · exact not_infix_of_containsL_eq_false hNoCust
  · show ¬ p <:+: (joinSep "\n    " (cs.map renderCustomEntry)).data
    refine joinSep_noInfix hnl hne hNL4 h4 h4L _ ?_
    intro s hs
    obtain ⟨kv, hkv, rfl⟩ := List.mem_map.mp hs
    have hkvm := hcz kv (by simpa using hkv)
    exact entry_noInfix hside kv hkvm.1 hkvm.2

/-- The token name interpolated into the equity template is marker-free when
every rendered customization value is. -/
theorem tokenNameOf_noInfix {p : List Char}
    (hEqTok : containsL p "EquityToken".data = false)
    (cz : Option Customizations)
    (hcz : ∀ kv ∈ cz.getD [], ¬ p <:+: (renderCV kv.2).data) :
    ¬ p <:+: (tokenNameOf cz).data := by
  rcases hv : cz.bind (fun cs => cs.lookup "tokenName") with _ | v
  · have heq : tokenNameOf cz = "EquityToken" := by rw [tokenNameOf, hv]
    rw [heq]
    exact not_infix_of_containsL_eq_false hEqTok
  · rcases cz with _ | cs
    · simp at hv
    · have hl : cs.lookup "tokenName" = some v := hv
      have hmem := lookup_mem hl
      have hval := hcz _ (by simpa using hmem)
      rcases ht : truthyCV v with _ | _
      · have heq : tokenNameOf (some cs) = "EquityToken" := by
          rw [tokenNameOf, hv]
          dsimp only
          rw [ht]
          rfl
        rw [heq]
        exact not_infix_of_containsL_eq_false hEqTok
      · have heq : tokenNameOf (some cs) = renderCV v := by
          rw [tokenNameOf, hv]
          dsimp only
          rw [ht]
          rfl
        rw [heq]
        exact hval

/-- Branch shape shared by the supply-chain and revenue templates: one
literal segment, the interpolated entity type, and a second literal segment
headed by a line break. -/
theorem seg2Branch_noInfix {p : List Char} (E : String) (c1 c2 : List String)
    (lastC : String) (hnl : '\n' ∉ p) (hne : p ≠ [])
    (hok1 : chunksOk p c1 = true) (hok2 : chunksOk p c2 = true)
    (hlast : c1.getLast?.getD "" = lastC) (hsL : noSpanL p lastC.data = true)
    (hhead2 : nlHead (catChunks c2) = true)
    (hE : ¬ p <:+: E.data) :
    ¬ p <:+: (catChunks c1 ++ (E ++ catChunks c2)).data := by
  simp only [strData_append]
  have hae : (catChunks c1).data = (catChunks c1.dropLast).data ++ lastC.data := by
    rw [← hlast]
    exact catChunks_last_decomp c1
  exact noInfix_append_l hae (noInfix_catChunks hnl hne c1 hok1)
    (noInfix_append_nlSeg' hnl hE (noInfix_catChunks hnl hne c2 hok2) hhead2) hsL

/-- No marker occurs in the equity-template artifact when none occurs in the
entity string or in the rendered customization values. -/
theorem eqFallback_noMarker {pm : String} (hpm : pm ∈ markerPatterns)
    (hnl : '\n' ∉ pm.data) (hne : pm.data ≠ [])
    (E : String) (hE : ¬ pm.data <:+: E.data) (cz : Option Customizations)
    (hcz : ∀ kv ∈ cz.getD [], noMarkersB kv.1 = true ∧ noMarkersB (renderCV kv.2) = true) :
    ¬ pm.data <:+: (eqSeg1 ++ (E ++ (eqSeg2 ++ (tokenNameOf cz ++ eqSeg3)))).data := by
  have hside := List.all_eq_true.mp markers_eqSide pm hpm
  simp only [eqSideB, Bool.and_eq_true, beq_iff_eq] at hside
  obtain ⟨hok1, hok2, hok3, hL1, hL2, hR3, hEqTok⟩ := hside
  have hTN : ¬ pm.data <:+: (tokenNameOf cz).data :=
    tokenNameOf_noInfix hEqTok cz (fun kv hkv => noMarkers_of_B (hcz kv hkv).2 pm hpm)
  simp only [strData_append]
  have hae1 : eqSeg1.data = (catChunks eqSeg1Chunks.dropLast).data ++
      ("\n * @title Equity Token for " : String).data := catChunks_last_decomp eqSeg1Chunks
  have hae2 : eqSeg2.data = (catChunks eqSeg2Chunks.dropLast).data ++
      ("\ncontract " : String).data := catChunks_last_decomp eqSeg2Chunks
  have hd3 : eqSeg3.data = (" is ERC20, Ownable, Pausable \x7b" : String).data ++
      (catChunks eqSeg3Chunks.tail).data :=
    catChunks_head_decomp " is ERC20, Ownable, Pausable \x7b" eqSeg3Chunks.tail
  exact noInfix_append_l hae1 (noInfix_catChunks hnl hne eqSeg1Chunks hok1)
    (noInfix_append_nlSeg hnl hE
      (noInfix_append_l hae2 (noInfix_catChunks hnl hne eqSeg2Chunks hok2)
        (noInfix_append_r hd3 hTN (noInfix_catChunks hnl hne eqSeg3Chunks hok3) hR3)
        hL2)
      rfl)
    hL1

/-- No marker occurs in the generic-template artifact when none occurs in
the interpolated category strings, keys or rendered values. -/
theorem genFallback_noMarker {pm : String} (hpm : pm ∈ markerPatterns)
    (hnl : '\n' ∉ pm.data) (hne : pm.data ≠ [])
    (S E T C : String)
    (hS : ¬ pm.data <:+: S.data) (hE : ¬ pm.data <:+: E.data)
    (hT : ¬ pm.data <:+: T.data) (hC : ¬ pm.data <:+: C.data)
    (cz : Option Customizations)
    (hcz : ∀ kv ∈ cz.getD [], noMarkersB kv.1 = true ∧ noMarkersB (renderCV kv.2) = true) :
    ¬ pm.data <:+: (genSeg1 ++ (S ++ (genSeg2 ++ (E ++ (genSeg3 ++ (T ++ (genSeg4 ++
      (S ++ (genSeg5 ++ (renderCustomBlock cz ++ (genSeg6 ++ (C ++ genSeg7)))))))))))).data := by
  have hgen := List.all_eq_true.mp markers_genSide pm hpm
  simp only [genSideB, Bool.and_eq_true, beq_iff_eq] at hgen
  obtain ⟨hok1, hok2, hok3, hok4, hok5, hok6, hok7, hsTitle, hsForR, hsForL, hsStd,
    hsTrans, hsContract, hsOwnable, hsInd, hsName, hsQuot⟩ := hgen
  have hent := List.all_eq_true.mp markers_entrySide pm hpm
  have hBLK : ¬ pm.data <:+: (renderCustomBlock cz).data :=
    renderCustomBlock_noInfix hnl hne hent cz
      (fun kv hkv => ⟨noMarkers_of_B (hcz kv hkv).1 pm hpm,
        noMarkers_of_B (hcz kv hkv).2 pm hpm⟩)
  simp only [strData_append]
  have hae1 : genSeg1.data = (catChunks genSeg1Chunks.dropLast).data ++
      ("\n * @title " : String).data := catChunks_last_decomp genSeg1Chunks
  have hae2 : genSeg2.data = (catChunks genSeg2Chunks.dropLast).data ++
      (" for " : String).data := catChunks_last_decomp genSeg2Chunks
  have hae3 : genSeg3.data = (catChunks genSeg3Chunks.dropLast).data ++
      ("\n * @dev Standard contract for " : String).data := catChunks_last_decomp genSeg3Chunks
  have hae4 : genSeg4.data = (catChunks genSeg4Chunks.dropLast).data ++
      ("\ncontract " : String).data := catChunks_last_decomp genSeg4Chunks
  have hae5 : genSeg5.data = (catChunks genSeg5Chunks.dropLast).data ++
      ("\n    " : String).data := catChunks_last_decomp genSeg5Chunks
  have hae6 : genSeg6.data = (catChunks genSeg6Chunks.dropLast).data ++
      ("\n        name = \"" : String).data := catChunks_last_decomp genSeg6Chunks
  have hd7 : genSeg7.data = ("\";" : String).data ++ (catChunks genSeg7Chunks.tail).data :=
    catChunks_head_decomp "\";" genSeg7Chunks.tail
  exact noInfix_append_l hae1 (noInfix_catChunks hnl hne genSeg1Chunks hok1)
    (noInfix_append_r (head_append_decomp " for " genSeg2Chunks.tail _) hS
      (noInfix_append_l hae2 (noInfix_catChunks hnl hne genSeg2Chunks hok2)
        (noInfix_append_nlSeg hnl hE
          (noInfix_append_l hae3 (noInfix_catChunks hnl hne genSeg3Chunks hok3)
            (noInfix_append_r (head_append_decomp " transactions" genSeg4Chunks.tail _) hT
              (noInfix_append_l hae4 (noInfix_catChunks hnl hne genSeg4Chunks hok4)
                (noInfix_append_r (head_append_decomp " is Ownable \x7b" genSeg5Chunks.tail _) hS
                  (noInfix_append_l hae5 (noInfix_catChunks hnl hne genSeg5Chunks hok5)
                    (noInfix_append_nlSeg hnl hBLK
                      (noInfix_append_l hae6 (noInfix_catChunks hnl hne genSeg6Chunks hok6)
                        (noInfix_append_r hd7 hC
                          (noInfix_catChunks hnl hne genSeg7Chunks hok7) hsQuot)
                        hsName)
                      rfl)
                    hsInd)
                  hsOwnable)
                hsContract)
              hsTrans)
            hsStd)
          rfl)
        hsForL)
      hsForR)
    hsTitle

/-- The fallback artifact contains no placeholder marker, for every enum
category triple and customizations whose keys and rendered values are
marker-free. -/
theorem getFallbackContract_noMarkers (e : EntityType) (t : TransactionType)
    (c : ContractType) (cz : Option Customizations)
    (hcz : ∀ kv ∈ cz.getD [], noMarkersB kv.1 = true ∧ noMarkersB (renderCV kv.2) = true) :
    noMarkers (getFallbackContract e.str t.str c.str cz) := by
  intro pm hpm
  have hcom := List.all_eq_true.mp markers_commonSide pm hpm
  simp only [commonSideB, Bool.and_eq_true, beq_iff_eq, List.all_eq_true] at hcom
  obtain ⟨hnlAll, hneB, hEnt, hTr, hCt, hSt⟩ := hcom
  have hnl : '\n' ∉ pm.data := by
    intro hm
    have := hnlAll _ hm
    simp at this
  have hne : pm.data ≠ [] := by
    intro h0
    rw [h0] at hneB
    simp at hneB
  have hE : ¬ pm.data <:+: e.str.data :=
    not_infix_of_containsL_eq_false (hEnt _ (entity_str_mem e))
  have hT : ¬ pm.data <:+: t.str.data :=
    not_infix_of_containsL_eq_false (hTr _ (transaction_str_mem t))
  have hCstr : ¬ pm.data <:+: c.str.data :=
    not_infix_of_containsL_eq_false (hCt _ (contract_str_mem c))
  have hSstr : ¬ pm.data <:+: (stripSpaces c.str).data :=
    not_infix_of_containsL_eq_false (hSt _ (List.mem_map_of_mem _ (contract_str_mem c)))
  cases c with
  | equity => exact eqFallback_noMarker hpm hnl hne e.str hE cz hcz
  | supplyChain =>
    have hside := List.all_eq_true.mp markers_supSide pm hpm
    simp only [supSideB, Bool.and_eq_true] at hside
    obtain ⟨hok1, hok2, hsL⟩ := hside
    exact seg2Branch_noInfix e.str supSeg1Chunks supSeg2Chunks
      "\n * @title Supply Chain Management Contract for " hnl hne hok1 hok2 rfl hsL rfl hE
  | revenue =>
    have hside := List.all_eq_true.mp markers_revSide pm hpm
    simp only [revSideB, Bool.and_eq_true] at hside
    obtain ⟨hok1, hok2, hsL⟩ := hside
    exact seg2Branch_noInfix e.str revSeg1Chunks revSeg2Chunks
      "\n * @title Revenue Sharing Contract for " hnl hne hok1 hok2 rfl hsL rfl hE
  | whiteLabel =>
    exact genFallback_noMarker hpm hnl hne (stripSpaces ContractType.whiteLabel.str)
      e.str t.str ContractType.whiteLabel.str hSstr hE hT hCstr cz hcz
  | vesting =>
    exact genFallback_noMarker hpm hnl hne (stripSpaces ContractType.vesting.str)
      e.str t.str ContractType.vesting.str hSstr hE hT hCstr cz hcz
  | governance =>
    exact genFallback_noMarker hpm hnl hne (stripSpaces ContractType.governance.str)
      e.str t.str ContractType.governance.str hSstr hE hT hCstr cz hcz
  | staking =>
    exact genFallback_noMarker hpm hnl hne (stripSpaces ContractType.staking.str)
      e.str t.str ContractType.staking.str hSstr hE hT hCstr cz hcz
  | liquidity =>
    exact genFallback_noMarker hpm hnl hne (stripSpaces ContractType.liquidity.str)
      e.str t.str ContractType.liquidity.str hSstr hE hT hCstr cz hcz

theorem validRequestStrings_enum (e : EntityType) (t : TransactionType) (c : ContractType) :
    validRequestStrings e.str t.str c.str = true := by
  cases e <;> cases t <;> cases c <;> decide

/-- Any text with a pragma, a contract declaration, a constructor, no
marker, and more than 500 characters passes `validateContractCode`. -/
theorem fallback_valid_of {art : String}
    (hP : jsIncludes art "pragma solidity" = true)
    (hCt : jsIncludes art "contract " = true)
    (hK : jsIncludes art "constructor" = true)
    (hnm : noMarkers art)
    (hlen : 500 < art.length) :
    validateContractCode art = true := by
  have hEll : jsIncludes art "..." = false :=
    jsIncludes_eq_false (hnm "..." (by decide))
  have h1 : jsIncludes art "// TODO" = false :=
    jsIncludes_eq_false (hnm "// TODO" (by decide))
  have h2 : jsIncludes art "// Implementation" = false :=
    jsIncludes_eq_false (hnm "// Implementation" (by decide))
  have h3 : jsIncludes art "rest of the code" = false :=
    jsIncludes_eq_false (hnm "rest of the code" (by decide))
  have h4 : jsIncludes art "// Add implementation" = false :=
    jsIncludes_eq_false (hnm "// Add implementation" (by decide))
  rw [validateContractCode]
  simp only [hP, hCt, hK, hEll, h1, h2, h3, h4, Bool.true_and, Bool.true_or,
    Bool.or_false, Bool.false_or, Bool.not_false, Bool.and_true, decide_eq_true_eq]
  exact hlen

/-- Structural positives of the equity-template artifact. -/
theorem eqArtifact_facts (E TN : String) :
    jsIncludes (eqSeg1 ++ (E ++ (eqSeg2 ++ (TN ++ eqSeg3)))) "pragma solidity" = true ∧
    jsIncludes (eqSeg1 ++ (E ++ (eqSeg2 ++ (TN ++ eqSeg3)))) "contract " = true ∧
    jsIncludes (eqSeg1 ++ (E ++ (eqSeg2 ++ (TN ++ eqSeg3)))) "constructor" = true ∧
    jsIncludes (eqSeg1 ++ (E ++ (eqSeg2 ++ (TN ++ eqSeg3)))) "SPDX-License-Identifier" = true ∧
    500 < (eqSeg1 ++ (E ++ (eqSeg2 ++ (TN ++ eqSeg3)))).length := by
  refine ⟨jsIncludes_append_left _ (by rfl),
    jsIncludes_append_right _ (jsIncludes_append_right _ (jsIncludes_append_left _ (by rfl))),
    jsIncludes_append_right _ (jsIncludes_append_right _ (jsIncludes_append_right _
      (jsIncludes_append_right _ (by rfl)))),
    jsIncludes_append_left _ (by rfl), ?_⟩
  have h3 : 500 < eqSeg3.length := by
    show 500 < (catChunks eqSeg3Chunks).length
    rw [catChunks_length]
    decide
  simp only [strLength_append]
  omega

/-- Structural positives of the supply-chain-template artifact. -/
theorem supArtifact_facts (E : String) :
    jsIncludes (supSeg1 ++ (E ++ supSeg2)) "pragma solidity" = true ∧
    jsIncludes (supSeg1 ++ (E ++ supSeg2)) "contract " = true ∧
    jsIncludes (supSeg1 ++ (E ++ supSeg2)) "constructor" = true ∧
    jsIncludes (supSeg1 ++ (E ++ supSeg2)) "SPDX-License-Identifier" = true ∧
    500 < (supSeg1 ++ (E ++ supSeg2)).length := by
  refine ⟨jsIncludes_append_left _ (by rfl),
    jsIncludes_append_right _ (jsIncludes_append_right _ (by rfl)),
    jsIncludes_append_right _ (jsIncludes_append_right _ (by rfl)),
    jsIncludes_append_left _ (by rfl), ?_⟩
  have h2 : 500 < supSeg2.length := by
    show 500 < (catChunks supSeg2Chunks).length
    rw [catChunks_length]
    decide
  simp only [strLength_append]
  omega

/-- Structural positives of the revenue-template artifact. -/
theorem revArtifact_facts (E : String) :
    jsIncludes (revSeg1 ++ (E ++ revSeg2)) "pragma solidity" = true ∧
    jsIncludes (revSeg1 ++ (E ++ revSeg2)) "contract " = true ∧
    jsIncludes (revSeg1 ++ (E ++ revSeg2)) "constructor" = true ∧
    jsIncludes (revSeg1 ++ (E ++ revSeg2)) "SPDX-License-Identifier" = true ∧
    500 < (revSeg1 ++ (E ++ revSeg2)).length := by
  refine ⟨jsIncludes_append_left _ (by rfl),
    jsIncludes_append_right _ (jsIncludes_append_right _ (by rfl)),
    jsIncludes_append_right _ (jsIncludes_append_right _ (by rfl)),
    jsIncludes_append_left _ (by rfl), ?_⟩
  have h2 : 500 < revSeg2.length := by
    show 500 < (catChunks revSeg2Chunks).length
    rw [catChunks_length]
    decide
  simp only [strLength_append]
  omega

/-- Structural positives of the generic-template artifact. -/
theorem genArtifact_facts (S E T C BLK : String) :
    jsIncludes (genSeg1 ++ (S ++ (genSeg2 ++ (E ++ (genSeg3 ++ (T ++ (genSeg4 ++ (S ++
      (genSeg5 ++ (BLK ++ (genSeg6 ++ (C ++ genSeg7)))))))))))) "pragma solidity" = true ∧
    jsIncludes (genSeg1 ++ (S ++ (genSeg2 ++ (E ++ (genSeg3 ++ (T ++ (genSeg4 ++ (S ++
      (genSeg5 ++ (BLK ++ (genSeg6 ++ (C ++ genSeg7)))))))))))) "contract " = true ∧
    jsIncludes (genSeg1 ++ (S ++ (genSeg2 ++ (E ++ (genSeg3 ++ (T ++ (genSeg4 ++ (S ++
      (genSeg5 ++ (BLK ++ (genSeg6 ++ (C ++ genSeg7)))))))))))) "constructor" = true ∧
    jsIncludes (genSeg1 ++ (S ++ (genSeg2 ++ (E ++ (genSeg3 ++ (T ++ (genSeg4 ++ (S ++
      (genSeg5 ++ (BLK ++ (genSeg6 ++ (C ++ genSeg7)))))))))))) "SPDX-License-Identifier" = true ∧
    500 < (genSeg1 ++ (S ++ (genSeg2 ++ (E ++ (genSeg3 ++ (T ++ (genSeg4 ++ (S ++
      (genSeg5 ++ (BLK ++ (genSeg6 ++ (C ++ genSeg7)))))))))))).length := by
  refine ⟨jsIncludes_append_left _ (by rfl),
    jsIncludes_append_right _ (jsIncludes_append_right _ (jsIncludes_append_right _
      (jsIncludes_append_right _ (jsIncludes_append_right _ (jsIncludes_append_right _
        (jsIncludes_append_left _ (by rfl))))))),
    jsIncludes_append_right _ (jsIncludes_append_right _ (jsIncludes_append_right _
      (jsIncludes_append_right _ (jsIncludes_append_right _ (jsIncludes_append_right _
        (jsIncludes_append_right _ (jsIncludes_append_right _ (jsIncludes_append_right _
          (jsIncludes_append_right _ (jsIncludes_append_left _ (by rfl))))))))))),
    jsIncludes_append_left _ (by rfl), ?_⟩
  have h7 : 500 < genSeg7.length := by
    show 500 < (catChunks genSeg7Chunks).length
    rw [catChunks_length]
    decide
  simp only [strLength_append]
  omega

/-- C10, counterexample: for the valid category triple
(LLP, B2B, Governance Token) and a customization whose VALUE (the number 1)
is free of placeholder markers, the fallback artifact nevertheless fails
`validateContractCode`: the customization KEY is interpolated verbatim into
the generic template's custom-parameters block, so a key containing "..."
plants an ellipsis marker in the artifact. -/
theorem C10_counterexample :
    validRequestStrings "LLP" "B2B" "Governance Token" = true ∧
    (∀ kv ∈ [("x...y", CustomValue.num 1)], noMarkersB (renderCV kv.2) = true) ∧
    jsIncludes (getFallbackContract "LLP" "B2B" "Governance Token"
      (some [("x...y", CustomValue.num 1)])) "..." = true ∧
    validateContractCode (getFallbackContract "LLP" "B2B" "Governance Token"
      (some [("x...y", CustomValue.num 1)])) = false := by
  exact ⟨by rfl, by decide, by rfl, by rfl⟩

/-- C10, amended: for every valid enum category triple and customizations
whose KEYS and rendered values are all free of placeholder markers, the
fallback artifact passes `validateContractCode` (pragma, contract
declaration, constructor, more than 500 characters, no ellipsis or
placeholder-comment marker) and also carries the SPDX license identifier
(which the validator computes but does not enforce). -/
theorem C10_amended_thm (e : EntityType) (t : TransactionType) (c : ContractType)
    (cz : Option Customizations)
    (hcz : ∀ kv ∈ cz.getD [], noMarkersB kv.1 = true ∧ noMarkersB (renderCV kv.2) = true) :
    validRequestStrings e.str t.str c.str = true ∧
    validateContractCode (getFallbackContract e.str t.str c.str cz) = true ∧
    hasSPDXLicense (getFallbackContract e.str t.str c.str cz) = true := by
  have hnm := getFallbackContract_noMarkers e t c cz hcz
  have hfacts : jsIncludes (getFallbackContract e.str t.str c.str cz) "pragma solidity" = true ∧
      jsIncludes (getFallbackContract e.str t.str c.str cz) "contract " = true ∧
      jsIncludes (getFallbackContract e.str t.str c.str cz) "constructor" = true ∧
      jsIncludes (getFallbackContract e.str t.str c.str cz) "SPDX-License-Identifier" = true ∧
      500 < (getFallbackContract e.str t.str c.str cz).length := by
    cases c with
    | equity => exact eqArtifact_facts e.str (tokenNameOf cz)
    | supplyChain => exact supArtifact_facts e.str
    | revenue => exact revArtifact_facts e.str
    | whiteLabel =>
      exact genArtifact_facts (stripSpaces ContractType.whiteLabel.str) e.str t.str
        ContractType.whiteLabel.str (renderCustomBlock cz)
    | vesting =>
      exact genArtifact_facts (stripSpaces ContractType.vesting.str) e.str t.str
        ContractType.vesting.str (renderCustomBlock cz)
    | governance =>
      exact genArtifact_facts (stripSpaces ContractType.governance.str) e.str t.str
        ContractType.governance.str (renderCustomBlock cz)
    | staking =>
      exact genArtifact_facts (stripSpaces ContractType.staking.str) e.str t.str
        ContractType.staking.str (renderCustomBlock cz)
    | liquidity =>
      exact genArtifact_facts (stripSpaces ContractType.liquidity.str) e.str t.str
        ContractType.liquidity.str (renderCustomBlock cz)
  exact ⟨validRequestStrings_enum e t c,
    fallback_valid_of hfacts.1 hfacts.2.1 hfacts.2.2.1 hnm hfacts.2.2.2.2,
    hfacts.2.2.2.1⟩

/-- C10, witness for the amended theorem: a concrete marker-free
customization on the Governance Token generic-template branch yields an
artifact accepted by the validator, with the SPDX header present. -/
theorem C10_amended_witness :
    validRequestStrings "LLP" "B2B" "Governance Token" = true ∧
    validateContractCode (getFallbackContract "LLP" "B2B" "Governance Token"
      (some [("minimumQuorum", CustomValue.num 4)])) = true ∧
    hasSPDXLicense (getFallbackContract "LLP" "B2B" "Governance Token"
      (some [("minimumQuorum", CustomValue.num 4)])) = true :=
  C10_amended_thm EntityType.llp TransactionType.b2b ContractType.governance
    (some [("minimumQuorum", CustomValue.num 4)]) (by decide)
